import Mathlib

/-!
# Chat-history persistence of 0xHiTek/AI_Chat_Bot

Shallow embedding of

* `src/netlify/functions/chat-storage.js` : the HTTP handler over the blob store
  (HistoryService), and
* `src/script.js` : the client state and the functions `startNewChat`,
  `updateChatHistory`, `loadChat`, `clearAllChats` and the history part of
  `sendMessage` (HistoryStore),

followed by the theorems that settle the claims of the specification.
-/

namespace ChatBot

/-! ## JSON values and the JavaScript operators the handler applies to them -/

/-- The values of the JSON texts that `JSON.stringify` writes, as `JSON.parse` reads
them back: what the blob store holds and what a response carries. An object is the list
of its own properties. A number is a finite double other than `-0`, given by its value
(a rational): `JSON.stringify` writes no other number. -/
inductive Json where
  | null : Json
  | bool (b : Bool) : Json
  | num (q : ℚ) : Json
  | str (s : String) : Json
  | arr (xs : List Json) : Json
  | obj (kvs : List (String × Json)) : Json

/-- The numbers that `req.json()` produces: a finite double other than `-0`, given by its
value, or `-0`, or `Infinity` or `-Infinity` (a literal that overflows, such as `1e999`).
`NaN` is the value of no JSON text. -/
inductive JsNumber where
  | finite (q : ℚ) : JsNumber
  | negZero : JsNumber
  | posInf : JsNumber
  | negInf : JsNumber

/-- The values that `req.json()` produces for a request body: JSON values whose numbers
are those of `JsNumber`. An object is the list of its own properties. -/
inductive JsValue where
  | null : JsValue
  | bool (b : Bool) : JsValue
  | num (n : JsNumber) : JsValue
  | str (s : String) : JsValue
  | arr (xs : List JsValue) : JsValue
  | obj (kvs : List (String × JsValue)) : JsValue

/-- What `JSON.stringify` writes for a number: `Infinity` and `-Infinity` are written as
`null`, `-0` as `0`, every other number as a literal that reads back as the same
number. -/
def JsNumber.written : JsNumber → Json
  | JsNumber.finite q => Json.num q
  | JsNumber.negZero => Json.num 0
  | JsNumber.posInf => Json.null
  | JsNumber.negInf => Json.null

mutual

/-- The value of the text that `JSON.stringify` writes for a value, `JSON.parse
(JSON.stringify v)`: the same value with its numbers written by `JsNumber.written`. -/
def JsValue.written : JsValue → Json
  | JsValue.null => Json.null
  | JsValue.bool b => Json.bool b
  | JsValue.num n => n.written
  | JsValue.str s => Json.str s
  | JsValue.arr xs => Json.arr (JsValue.writtenList xs)
  | JsValue.obj kvs => Json.obj (JsValue.writtenFields kvs)

/-- The elements of an array, written in turn. -/
def JsValue.writtenList : List JsValue → List Json
  | [] => []
  | x :: xs => x.written :: JsValue.writtenList xs

/-- The properties of an object, written in turn. -/
def JsValue.writtenFields : List (String × JsValue) → List (String × Json)
  | [] => []
  | (k, v) :: kvs => (k, v.written) :: JsValue.writtenFields kvs

end

mutual

/-- A written JSON value as a value of a request body: the inclusion of `Json` in
`JsValue`. -/
def Json.toJs : Json → JsValue
  | Json.null => JsValue.null
  | Json.bool b => JsValue.bool b
  | Json.num q => JsValue.num (JsNumber.finite q)
  | Json.str s => JsValue.str s
  | Json.arr xs => JsValue.arr (Json.toJsList xs)
  | Json.obj kvs => JsValue.obj (Json.toJsFields kvs)

/-- The inclusion, element by element. -/
def Json.toJsList : List Json → List JsValue
  | [] => []
  | x :: xs => x.toJs :: Json.toJsList xs

/-- The inclusion, property by property. -/
def Json.toJsFields : List (String × Json) → List (String × JsValue)
  | [] => []
  | (k, v) :: kvs => (k, v.toJs) :: Json.toJsFields kvs

end

/-- JavaScript truthiness of a body value: `null`, `false`, `0`, `-0` and `""` are falsy;
every other number (`Infinity` included), every other string, every array and every
object is truthy. -/
def JsValue.truthy : JsValue → Bool
  | JsValue.null => false
  | JsValue.bool b => b
  | JsValue.num (JsNumber.finite q) => decide (q ≠ 0)
  | JsValue.num JsNumber.negZero => false
  | JsValue.num JsNumber.posInf => true
  | JsValue.num JsNumber.negInf => true
  | JsValue.str s => s != ""
  | JsValue.arr _ => true
  | JsValue.obj _ => true

/-- The value of `v || d`, where `v` is the result of a property read (`none` is
`undefined`, which is falsy). -/
def orDefault (v : Option JsValue) (d : JsValue) : JsValue :=
  match v with
  | some x => if x.truthy then x else d
  | none => d

/-- The property read `x.k` on a stored value, for the key `id` that the handler reads:
`none` as the outer result is the `TypeError` thrown on `null`; `some none` is
`undefined`, the result for a missing key and for every number, boolean, string and
array (the key is on no built-in prototype). -/
def getProp (x : Json) (k : String) : Option (Option Json) :=
  match x with
  | Json.null => none
  | Json.obj kvs => some (kvs.lookup k)
  | _ => some none

/-- The property read `x.k` on a body value, for the keys the handler reads (`id`,
`title`, `messages`, `model`); results as for `getProp`. -/
def JsValue.getProp (x : JsValue) (k : String) : Option (Option JsValue) :=
  match x with
  | JsValue.null => none
  | JsValue.obj kvs => some (kvs.lookup k)
  | _ => some none

/-- The comparison `v === p` of a property read `v` with a query parameter `p`
(`searchParams.get` gives a string, or `null` when the parameter is absent): strict
equality holds for two equal strings and for `null === null` only. -/
def strictEq (v : Option Json) (p : Option String) : Bool :=
  match v, p with
  | some (Json.str s), some t => s == t
  | some Json.null, none => true
  | _, _ => false

/-! ## The blob store -/

/-- The blob store `getStore("chat-data")`: a value per key. The store holds the texts
that `JSON.stringify` wrote, which are never the empty string and which `JSON.parse`
reads back; the model keeps the value of the text, so that `some v` is a stored (truthy)
text and `none` the `null` that `get` returns for a key never set or deleted. The calls
to the store are taken to succeed. -/
abbrev Store := String → Option Json

namespace Store

/-- The store with nothing in it. -/
def empty : Store := fun _ => none

/-- `chatStore.set(k, text)`, where `v` is the value of the text. -/
def set (st : Store) (k : String) (v : Json) : Store :=
  fun k' => if k' = k then some v else st k'

/-- `chatStore.delete(k)`. -/
def delete (st : Store) (k : String) : Store :=
  fun k' => if k' = k then none else st k'

end Store

/-! ## Requests, responses and the handler -/

/-- What the handler reads of a request: the method, the query parameters `userId`,
`action` and `chatId` (`none` when `searchParams.get` returns `null`), and the result of
`req.json()` (`none` when it throws: no body, or a body that is not JSON). -/
structure Request where
  method : String
  userId : Option String
  action : Option String
  chatId : Option String
  body : Option JsValue

/-- A response: the status and the value of the JSON text of the body (`none` for the
body `null` of the preflight answer). The headers are the same constant on every
response and are left out; so is the engine-defined `message` text of a 500 body. -/
structure Response where
  status : Nat
  body : Option Json

/-- The two readings of the clock in `save-chat`: `Date.now()` and
`new Date().toISOString()`. -/
structure Clock where
  now : Nat
  iso : String

/-- Result of `url.searchParams.get('userId') || 'anonymous'`. -/
def effectiveUserId (p : Option String) : String :=
  match p with
  | some u => if u = "" then "anonymous" else u
  | none => "anonymous"

/-- The key of the history of a user. -/
def historyKey (u : String) : String := "history_" ++ u

/-- The key of the settings of a user. -/
def settingsKey (u : String) : String := "settings_" ++ u

/-- A 200 response `JSON.stringify({ success: true, data: d })`, for `d` as written. -/
def okData (d : Json) : Response :=
  { status := 200, body := some (Json.obj [("success", Json.bool true), ("data", d)]) }

/-- A 200 response `{ success: true, message: m }`. -/
def okMessage (m : String) : Response :=
  { status := 200, body := some (Json.obj [("success", Json.bool true), ("message", Json.str m)]) }

/-- A response `{ error: e }` with status `code`. -/
def errorResponse (code : Nat) (e : String) : Response :=
  { status := code, body := some (Json.obj [("error", Json.str e)]) }

/-- The object `newChat` of `save-chat`, which is only ever passed to `JSON.stringify`:
the key `model` is left out when `body.model` is `undefined`, as `JSON.stringify` does.
The outer `none` is the `TypeError` of a property read on the body `null`. -/
def newChat (clk : Clock) (body : JsValue) : Option JsValue := do
  let id ← body.getProp "id"
  let title ← body.getProp "title"
  let messages ← body.getProp "messages"
  let model ← body.getProp "model"
  pure (JsValue.obj
    ([("id", orDefault id (JsValue.str (toString clk.now))),
      ("title", orDefault title (JsValue.str "New Chat")),
      ("messages", orDefault messages (JsValue.arr [])),
      ("timestamp", JsValue.str clk.iso)]
      ++ (match model with
          | some m => [("model", m)]
          | none => [])))

/-- `history.unshift(newChat); if (history.length > 50) history.splice(50);`, on the
values that `JSON.stringify(history)` then writes. -/
def pushCapped (chat : Json) (history : List Json) : List Json :=
  let h := chat :: history
  if h.length > 50 then h.take 50 else h

/-- `history.filter(chat => chat.id !== chatId)`; `none` when the callback throws on an
entry `null`. -/
def filterHistory (chatId : Option String) : List Json → Option (List Json)
  | [] => some []
  | c :: cs => do
    let id ← getProp c "id"
    let rest ← filterHistory chatId cs
    pure (if strictEq id chatId then rest else c :: rest)

/-- The body of the `try` block: `none` when something throws. Every throw precedes the
write of its branch, so the store of a failed request is the store it started with. -/
def handlerTry (clk : Clock) (st : Store) (req : Request) : Option (Response × Store) :=
  let userId := effectiveUserId req.userId
  let action := req.action
  if req.method = "GET" then
    if action = some "history" then
      some (okData (match st (historyKey userId) with
                    | some v => v
                    | none => Json.arr []), st)
    else if action = some "settings" then
      some (okData (match st (settingsKey userId) with
                    | some v => v
                    | none => Json.obj []), st)
    else some (errorResponse 400 "Invalid action", st)
  else if req.method = "POST" then
    match req.body with
    | none => none
    | some body =>
      if action = some "save-chat" then
        let history := match st (historyKey userId) with
                       | some v => v
                       | none => Json.arr []
        match newChat clk body, history with
        | some chat, Json.arr xs =>
          some (okData chat.written,
            st.set (historyKey userId) (Json.arr (pushCapped chat.written xs)))
        | _, _ => none
      else if action = some "save-settings" then
        some (okMessage "Settings saved", st.set (settingsKey userId) body.written)
      else some (errorResponse 400 "Invalid action", st)
  else if req.method = "DELETE" then
    if action = some "clear-history" then
      some (okMessage "History cleared", st.delete (historyKey userId))
    else if action = some "delete-chat" then
      match st (historyKey userId) with
      | some (Json.arr xs) =>
        match filterHistory req.chatId xs with
        | some ys => some (okMessage "Chat deleted", st.set (historyKey userId) (Json.arr ys))
        | none => none
      | some _ => none
      | none => some (okMessage "Chat deleted", st)
    else some (errorResponse 400 "Invalid action", st)
  else some (errorResponse 405 "Method not allowed", st)

/-- The handler `export default async (req, context) => ...`: the response and the
store after the request. -/
def handler (clk : Clock) (st : Store) (req : Request) : Response × Store :=
  if req.method = "OPTIONS" then ({ status := 200, body := none }, st)
  else
    match handlerTry clk st req with
    | some r => r
    | none => (errorResponse 500 "Internal server error", st)

/-- The actions that the `switch` of the handler knows for a method (the route table of
the specification). -/
def routeActions (method : String) : List String :=
  if method = "GET" then ["history", "settings"]
  else if method = "POST" then ["save-chat", "save-settings"]
  else if method = "DELETE" then ["clear-history", "delete-chat"]
  else []

/-- The history the handler works with for user id `u`: the stored array, and the empty
list when nothing (or something that is not an array) is stored. -/
def storedHistory (st : Store) (u : String) : List Json :=
  match st (historyKey u) with
  | some (Json.arr xs) => xs
  | _ => []

/-- The `id` of a history entry, as the callback of `delete-chat` reads it. -/
def idOf (c : Json) : Option (Option Json) := getProp c "id"

/-! ## The client: state and history functions of `script.js` -/

/-- A message of a conversation: `{ role, content }`. -/
structure Message where
  role : String
  content : String
deriving DecidableEq, Repr

/-- A session of the client history, the object `chatData` of `updateChatHistory`. The
title is kept as its UTF-16 code units, which is what `substring` cuts. -/
structure Session where
  id : String
  title : List Nat
  messages : List Message
  timestamp : String
  model : String
deriving DecidableEq, Repr

/-- The fields of the global `state` that the history functions read or write. Values
are immutable here: the array that `loadChat` shares between `state.messages` and the
loaded session is only changed by the push of `sendMessage`, right before
`updateChatHistory` writes that same session again (a loaded session whose id is the
empty string apart, which `updateChatHistory` does not look up). -/
structure State where
  currentModel : String
  chatHistory : List Session
  currentChatId : Option String
  messages : List Message
  totalTokens : Nat
deriving DecidableEq, Repr

/-- The state after the script is loaded: the model and the history come from
`localStorage`, no session is active. -/
def initialState (model : String) (stored : List Session) : State :=
  { currentModel := model, chatHistory := stored, currentChatId := none,
    messages := [], totalTokens := 0 }

/-- The UTF-16 code units of a character: one unit in the basic plane, a surrogate pair
above it. -/
def utf16Char (c : Char) : List Nat :=
  if c.toNat < 65536 then [c.toNat]
  else [55296 + (c.toNat - 65536) / 1024, 56320 + (c.toNat - 65536) % 1024]

/-- The UTF-16 code units of a string, the elements of a JavaScript string. -/
def utf16Units (s : String) : List Nat := s.data.flatMap utf16Char

/-- The expression `state.messages[0]?.content?.substring(0, 30) || 'New Chat'`:
the first 30 code units of the first message, and `'New Chat'` when there is no message
or its content is empty. -/
def titleOf (messages : List Message) : List Nat :=
  match messages.head? with
  | some m =>
    if (utf16Units m.content).take 30 = [] then utf16Units "New Chat"
    else (utf16Units m.content).take 30
  | none => utf16Units "New Chat"

/-- The id that `updateChatHistory` works with: `state.currentChatId`, replaced by
`Date.now().toString()` when it is falsy (`null` or `""`). -/
def activeId (clk : Clock) (cur : Option String) : String :=
  match cur with
  | some c => if c = "" then toString clk.now else c
  | none => toString clk.now

/-- The function `updateChatHistory` (the writes to `localStorage` and to the page are
not part of the state). -/
def updateChatHistory (clk : Clock) (s : State) : State :=
  let cid := activeId clk s.currentChatId
  let chatIndex := s.chatHistory.findIdx (fun chat => decide (chat.id = cid))
  let chatData : Session :=
    { id := cid, title := titleOf s.messages, messages := s.messages,
      timestamp := clk.iso, model := s.currentModel }
  let h :=
    if chatIndex < s.chatHistory.length then s.chatHistory.set chatIndex chatData
    else if s.messages.length > 0 then chatData :: s.chatHistory
    else s.chatHistory
  { s with
    currentChatId := some cid
    chatHistory := if h.length > 50 then h.take 50 else h }

/-- The function `startNewChat`; `now` is its own reading of `Date.now()`. -/
def startNewChat (now : Nat) (clk : Clock) (s : State) : State :=
  updateChatHistory clk
    { s with messages := [], currentChatId := some (toString now), totalTokens := 0 }

/-- The end of the `try` block of `sendMessage`, once the completion API has answered
(`recordExchange` in the specification): the token count, the push of the two messages
and `updateChatHistory`. -/
def recordExchange (userText assistantText : String) (usage : Option Nat) (clk : Clock)
    (s : State) : State :=
  updateChatHistory clk
    { s with
      totalTokens := match usage with
                     | some t => s.totalTokens + t
                     | none => s.totalTokens
      messages := s.messages ++
        [{ role := "user", content := userText },
         { role := "assistant", content := assistantText }] }

/-- The function `loadChat`. -/
def loadChat (chatId : String) (s : State) : State :=
  match s.chatHistory.find? (fun c => decide (c.id = chatId)) with
  | none => s
  | some chat =>
    { s with currentChatId := some chatId, messages := chat.messages,
             currentModel := chat.model }

/-- The function `clearAllChats`; `confirmed` is the answer to `confirm(...)`. -/
def clearAllChats (confirmed : Bool) (now : Nat) (clk : Clock) (s : State) : State :=
  if confirmed then
    startNewChat now clk
      { s with chatHistory := [], messages := [], currentChatId := none, totalTokens := 0 }
  else s

/-- The ids of the sessions of the history, in order. -/
def State.ids (s : State) : List String := s.chatHistory.map Session.id

/-- The events that change the client history. -/
inductive Op where
  | startNewChat (now : Nat) (clk : Clock)
  | recordExchange (userText assistantText : String) (usage : Option Nat) (clk : Clock)
  | loadChat (chatId : String)
  | clearAllChats (confirmed : Bool) (now : Nat) (clk : Clock)

/-- Whether an event is a `recordExchange`. -/
def Op.isExchange : Op → Bool
  | Op.recordExchange _ _ _ _ => true
  | _ => false

/-- Whether an event is a `clearAllChats`. -/
def Op.isClear : Op → Bool
  | Op.clearAllChats _ _ _ => true
  | _ => false

/-- One event. -/
def step (s : State) : Op → State
  | Op.startNewChat now clk => startNewChat now clk s
  | Op.recordExchange u a usage clk => recordExchange u a usage clk s
  | Op.loadChat chatId => loadChat chatId s
  | Op.clearAllChats c now clk => clearAllChats c now clk s

/-- The id that an event upserts, if it does: the active id of a `recordExchange` (the
upsert of `startNewChat` has a new id and no message, and writes no session). -/
def touched (s : State) : Op → Option String
  | Op.recordExchange _ _ _ clk => some (activeId clk s.currentChatId)
  | _ => none

/-- The id that an event inserts as a new entry, if it does: the active id of a
`recordExchange` when no session of the history has it (the upserts of `startNewChat`
and `clearAllChats` run with an empty message buffer and insert nothing). -/
def inserted (s : State) : Op → Option String
  | Op.recordExchange _ _ _ clk =>
    if activeId clk s.currentChatId ∈ s.ids then none else some (activeId clk s.currentChatId)
  | _ => none

/-- The ids that `f` picks along a run, oldest first. -/
def logOf (f : State → Op → Option String) : State → List Op → List String
  | _, [] => []
  | s, op :: ops => (f s op).toList ++ logOf f (step s op) ops

/-- The `n` sessions most recently named in a log (oldest first), most recent first. -/
def mostRecent (n : Nat) (log : List String) : List String :=
  (log.dedup.reverse).take n

/-- A run of 51 sessions: sessions `1` to `50` are created in turn, session `1` is
loaded and gets one more exchange, then one more session, `52`, is created. -/
def fiftyOneSessions : List Op :=
  (List.range 50).flatMap (fun i =>
    [Op.startNewChat (i + 1) ⟨i + 1, "t"⟩, Op.recordExchange "q" "r" none ⟨i + 1, "t"⟩])
  ++ [Op.loadChat "1", Op.recordExchange "q" "r" none ⟨51, "t"⟩,
      Op.startNewChat 52 ⟨52, "t"⟩, Op.recordExchange "q" "r" none ⟨52, "t"⟩]

/-- A sequence of events, oldest first. -/
def run (s : State) (ops : List Op) : State := ops.foldl step s

/-- Whether a message has been sent in a sequence of events: one of them is a
`recordExchange`. -/
def messageSent (ops : List Op) : Bool := ops.any Op.isExchange

/-- The reading of `Date.now()` that an event assigns to `currentChatId`, if it does:
that of `startNewChat`, also when a confirmed `clearAllChats` calls it. -/
def Op.assigned : Op → Option Nat
  | Op.startNewChat now _ => some now
  | Op.clearAllChats true now _ => some now
  | _ => none

/-- The clock reading assigned by the most recent `startNewChat` of a sequence of
events, after the reading `acc` assigned before the sequence. -/
def lastAssigned (acc : Option Nat) (ops : List Op) : Option Nat :=
  ops.foldl (fun a op => match op.assigned with
                         | some n => some n
                         | none => a) acc

/-- The double nearest to the literal `0.2`, by its value. -/
def double_0_2 : ℚ := 3602879701896397 / 18014398509481984

/-! ## Lemmas on the handler -/

theorem pushCapped_eq_take (chat : Json) (history : List Json) :
    pushCapped chat history = (chat :: history).take 50 := by
  simp only [pushCapped]
  split_ifs with h
  · rfl
  · exact (List.take_of_length_le (by omega)).symm

theorem pushCapped_length_le (chat : Json) (history : List Json) :
    (pushCapped chat history).length ≤ 50 := by
  rw [pushCapped_eq_take, List.length_take]
  exact Nat.min_le_left _ _

mutual

theorem written_toJs : ∀ j : Json, j.toJs.written = j
  | Json.null => rfl
  | Json.bool _ => rfl
  | Json.num _ => rfl
  | Json.str _ => rfl
  | Json.arr xs => by
    simp only [Json.toJs, JsValue.written, writtenList_toJsList xs]
  | Json.obj kvs => by
    simp only [Json.toJs, JsValue.written, writtenFields_toJsFields kvs]

theorem writtenList_toJsList : ∀ xs : List Json, JsValue.writtenList (Json.toJsList xs) = xs
  | [] => rfl
  | x :: xs => by
    simp only [Json.toJsList, JsValue.writtenList, written_toJs x, writtenList_toJsList xs]

theorem writtenFields_toJsFields :
    ∀ kvs : List (String × Json), JsValue.writtenFields (Json.toJsFields kvs) = kvs
  | [] => rfl
  | (k, v) :: kvs => by
    simp only [Json.toJsFields, JsValue.writtenFields, written_toJs v,
      writtenFields_toJsFields kvs]

end

theorem truthy_eq_false_iff (v : JsValue) :
    v.truthy = false ↔
      v = JsValue.null ∨ v = JsValue.bool false ∨ v = JsValue.num (JsNumber.finite 0) ∨
        v = JsValue.num JsNumber.negZero ∨ v = JsValue.str "" := by
  cases v with
  | null => simp [JsValue.truthy]
  | bool b => cases b <;> simp [JsValue.truthy]
  | num n => cases n <;> simp [JsValue.truthy]
  | str s => simp [JsValue.truthy]
  | arr xs => simp [JsValue.truthy]
  | obj kvs => simp [JsValue.truthy]

theorem orDefault_eq (v : Option JsValue) (d : JsValue) :
    orDefault v d =
      (match v with
       | some x => if x.truthy = true then x else d
       | none => d) := by
  cases v <;> rfl

theorem getProp_isSome_of_ne_null {b : JsValue} (hb : b ≠ JsValue.null) (k : String) :
    ∃ v, b.getProp k = some v := by
  cases b <;> simp [JsValue.getProp] at hb ⊢

theorem newChat_of_ne_null (clk : Clock) {b : JsValue} (hb : b ≠ JsValue.null) :
    ∃ id title messages model,
      b.getProp "id" = some id ∧ b.getProp "title" = some title ∧
      b.getProp "messages" = some messages ∧ b.getProp "model" = some model ∧
      newChat clk b = some (JsValue.obj
        ([("id", orDefault id (JsValue.str (toString clk.now))),
          ("title", orDefault title (JsValue.str "New Chat")),
          ("messages", orDefault messages (JsValue.arr [])),
          ("timestamp", JsValue.str clk.iso)]
          ++ (match model with
              | some m => [("model", m)]
              | none => []))) := by
  obtain ⟨id, hid⟩ := getProp_isSome_of_ne_null hb "id"
  obtain ⟨title, htitle⟩ := getProp_isSome_of_ne_null hb "title"
  obtain ⟨messages, hmessages⟩ := getProp_isSome_of_ne_null hb "messages"
  obtain ⟨model, hmodel⟩ := getProp_isSome_of_ne_null hb "model"
  refine ⟨id, title, messages, model, hid, htitle, hmessages, hmodel, ?_⟩
  simp [newChat, hid, htitle, hmessages, hmodel]

theorem newChat_null (clk : Clock) : newChat clk JsValue.null = none := by
  simp [newChat, JsValue.getProp]

theorem newChat_eq_none_iff (clk : Clock) (b : JsValue) :
    newChat clk b = none ↔ b = JsValue.null := by
  constructor
  · intro h
    by_contra hb
    obtain ⟨_, _, _, _, _, _, _, _, hs⟩ := newChat_of_ne_null clk hb
    rw [h] at hs
    exact Option.noConfusion hs
  · rintro rfl
    exact newChat_null clk

theorem written_newChat_obj (clk : Clock) (id title messages model : Option JsValue) :
    (JsValue.obj
      ([("id", orDefault id (JsValue.str (toString clk.now))),
        ("title", orDefault title (JsValue.str "New Chat")),
        ("messages", orDefault messages (JsValue.arr [])),
        ("timestamp", JsValue.str clk.iso)]
        ++ (match model with
            | some m => [("model", m)]
            | none => []))).written =
      Json.obj
        ([("id", JsValue.written
            (match id with
             | some v => if v.truthy = true then v else JsValue.str (toString clk.now)
             | none => JsValue.str (toString clk.now))),
          ("title", JsValue.written
            (match title with
             | some v => if v.truthy = true then v else JsValue.str "New Chat"
             | none => JsValue.str "New Chat")),
          ("messages", JsValue.written
            (match messages with
             | some v => if v.truthy = true then v else JsValue.arr []
             | none => JsValue.arr [])),
          ("timestamp", Json.str clk.iso)]
          ++ (match model with
              | some m => [("model", m.written)]
              | none => [])) := by
  rw [orDefault_eq, orDefault_eq, orDefault_eq]
  cases model <;> rfl

theorem handler_get_history (clk : Clock) (st : Store) (g : Request)
    (hm : g.method = "GET") (ha : g.action = some "history") :
    handler clk st g =
      (okData (match st (historyKey (effectiveUserId g.userId)) with
               | some v => v
               | none => Json.arr []), st) := by
  simp [handler, handlerTry, hm, ha]

theorem handler_get_settings (clk : Clock) (st : Store) (g : Request)
    (hm : g.method = "GET") (ha : g.action = some "settings") :
    handler clk st g =
      (okData (match st (settingsKey (effectiveUserId g.userId)) with
               | some v => v
               | none => Json.obj []), st) := by
  simp [handler, handlerTry, hm, ha]

theorem handler_save_chat (clk : Clock) (st : Store) (req : Request) (b chat : JsValue)
    (hm : req.method = "POST") (ha : req.action = some "save-chat")
    (hb : req.body = some b) (hc : newChat clk b = some chat) (h : List Json)
    (hh : st (historyKey (effectiveUserId req.userId)) = some (Json.arr h) ∨
      (st (historyKey (effectiveUserId req.userId)) = none ∧ h = [])) :
    handler clk st req =
      (okData chat.written,
        st.set (historyKey (effectiveUserId req.userId))
          (Json.arr ((chat.written :: h).take 50))) := by
  rcases hh with hh | ⟨hh, rfl⟩ <;>
    simp [handler, handlerTry, hm, ha, hb, hc, hh, pushCapped_eq_take]

/-! ## C1: save-chat -/

/-- C1, as stated, fails: the JSON body `null` makes `save-chat` answer 500 (the
property read `body.id` throws) and nothing is stored; a body whose `id` is present but
falsy (`""`) gets the clock-derived id, not its own; and a body whose `id` is the number
`Infinity` (the literal `1e999`) gets the id `null`, which is how `JSON.stringify`
writes that number. -/
theorem save_chat_counterexample :
    (handler ⟨1700000000000, "2023-11-14T22:13:20.000Z"⟩ Store.empty
      { method := "POST", userId := some "u1", action := some "save-chat", chatId := none,
        body := some JsValue.null }).1.status = 500 ∧
    (handler ⟨1700000000000, "2023-11-14T22:13:20.000Z"⟩ Store.empty
      { method := "POST", userId := some "u1", action := some "save-chat", chatId := none,
        body := some JsValue.null }).2 (historyKey "u1") = none ∧
    (handler ⟨1700000000000, "2023-11-14T22:13:20.000Z"⟩ Store.empty
      { method := "POST", userId := some "u1", action := some "save-chat", chatId := none,
        body := some (JsValue.obj [("id", JsValue.str ""), ("title", JsValue.str "Hi")]) }).1 =
      { status := 200,
        body := some (Json.obj [("success", Json.bool true),
          ("data", Json.obj [("id", Json.str "1700000000000"), ("title", Json.str "Hi"),
            ("messages", Json.arr []),
            ("timestamp", Json.str "2023-11-14T22:13:20.000Z")])]) } ∧
    (handler ⟨1700000000000, "2023-11-14T22:13:20.000Z"⟩ Store.empty
      { method := "POST", userId := some "u1", action := some "save-chat", chatId := none,
        body := some (JsValue.obj [("id", JsValue.num JsNumber.posInf),
          ("title", JsValue.str "Hi")]) }).1 =
      { status := 200,
        body := some (Json.obj [("success", Json.bool true),
          ("data", Json.obj [("id", Json.null), ("title", Json.str "Hi"),
            ("messages", Json.arr []),
            ("timestamp", Json.str "2023-11-14T22:13:20.000Z")])]) } := by
  refine ⟨rfl, rfl, rfl, rfl⟩

/-- C1, amended: for every user id parameter, every history `h` stored for the user
(`[]` when nothing is stored) and every JSON body `b` other than `null`, `save-chat`
answers 200 with `success: true` and `data` the new session `s`. The `id`, `title` and
`messages` of `s` are those of `b` when they are truthy and otherwise the clock string,
`"New Chat"` and `[]`, and its `model` is that of `b` (no key when `b` has none), each
as `JSON.stringify` writes it. The history stored afterwards, which a following `GET
history` of the user returns with status 200, is `s` followed by `h`, cut to its first
50 entries. The last conjuncts say which values are falsy and what is written: a value
without `-0`, `Infinity` and `-Infinity` is written as it is, these three as `0`, `null`
and `null`. -/
theorem save_chat_spec (clk clk2 : Clock) (st : Store) (req g : Request) (b : JsValue)
    (h : List Json)
    (hm : req.method = "POST") (ha : req.action = some "save-chat")
    (hb : req.body = some b) (hnn : b ≠ JsValue.null)
    (hh : st (historyKey (effectiveUserId req.userId)) = some (Json.arr h) ∨
      (st (historyKey (effectiveUserId req.userId)) = none ∧ h = []))
    (hgm : g.method = "GET") (hga : g.action = some "history")
    (hgu : g.userId = req.userId) :
    ∃ id title messages model s,
      b.getProp "id" = some id ∧ b.getProp "title" = some title ∧
      b.getProp "messages" = some messages ∧ b.getProp "model" = some model ∧
      s = Json.obj
        ([("id", JsValue.written
            (match id with
             | some v => if v.truthy = true then v else JsValue.str (toString clk.now)
             | none => JsValue.str (toString clk.now))),
          ("title", JsValue.written
            (match title with
             | some v => if v.truthy = true then v else JsValue.str "New Chat"
             | none => JsValue.str "New Chat")),
          ("messages", JsValue.written
            (match messages with
             | some v => if v.truthy = true then v else JsValue.arr []
             | none => JsValue.arr [])),
          ("timestamp", Json.str clk.iso)]
          ++ (match model with
              | some m => [("model", m.written)]
              | none => [])) ∧
      (handler clk st req).1.status = 200 ∧
      (handler clk st req).1.body =
        some (Json.obj [("success", Json.bool true), ("data", s)]) ∧
      (handler clk st req).2 (historyKey (effectiveUserId req.userId)) =
        some (Json.arr ((s :: h).take 50)) ∧
      (handler clk2 (handler clk st req).2 g).1.status = 200 ∧
      (handler clk2 (handler clk st req).2 g).1.body =
        some (Json.obj [("success", Json.bool true),
          ("data", Json.arr ((s :: h).take 50))]) ∧
      (∀ v : JsValue, v.truthy = false ↔
        v = JsValue.null ∨ v = JsValue.bool false ∨ v = JsValue.num (JsNumber.finite 0) ∨
          v = JsValue.num JsNumber.negZero ∨ v = JsValue.str "") ∧
      (∀ j : Json, j.toJs.written = j) ∧
      (JsValue.num JsNumber.negZero).written = Json.num 0 ∧
      (JsValue.num JsNumber.posInf).written = Json.null ∧
      (JsValue.num JsNumber.negInf).written = Json.null := by
  obtain ⟨id, title, messages, model, hid, htitle, hmessages, hmodel, hs⟩ :=
    newChat_of_ne_null clk hnn
  refine ⟨id, title, messages, model, _, hid, htitle, hmessages, hmodel, rfl, ?_⟩
  rw [handler_save_chat clk st req b _ hm ha hb hs h hh, handler_get_history clk2 _ g hgm hga,
    hgu]
  rw [written_newChat_obj clk id title messages model]
  refine ⟨rfl, rfl, by simp [Store.set], rfl, by simp [Store.set, okData],
    truthy_eq_false_iff, written_toJs, rfl, rfl, rfl⟩

/-- The amended C1 at the scenario of the specification: user `u1`, nothing stored, body
`{title: "Hi", messages: [{role: "user", content: "Hi"}], model: "m1"}`. -/
theorem save_chat_spec_witness :
    (handler ⟨1700000000000, "2023-11-14T22:13:20.000Z"⟩ Store.empty
      { method := "POST", userId := some "u1", action := some "save-chat", chatId := none,
        body := some (JsValue.obj [("title", JsValue.str "Hi"),
          ("messages", JsValue.arr
            [JsValue.obj [("role", JsValue.str "user"), ("content", JsValue.str "Hi")]]),
          ("model", JsValue.str "m1")]) }).1.status = 200 ∧
    (handler ⟨1700000000000, "2023-11-14T22:13:20.000Z"⟩ Store.empty
      { method := "POST", userId := some "u1", action := some "save-chat", chatId := none,
        body := some (JsValue.obj [("title", JsValue.str "Hi"),
          ("messages", JsValue.arr
            [JsValue.obj [("role", JsValue.str "user"), ("content", JsValue.str "Hi")]]),
          ("model", JsValue.str "m1")]) }).1.body =
      some (Json.obj [("success", Json.bool true),
        ("data", Json.obj [("id", Json.str "1700000000000"), ("title", Json.str "Hi"),
          ("messages", Json.arr
            [Json.obj [("role", Json.str "user"), ("content", Json.str "Hi")]]),
          ("timestamp", Json.str "2023-11-14T22:13:20.000Z"),
          ("model", Json.str "m1")])]) ∧
    (handler ⟨1700000000001, "2023-11-14T22:13:20.001Z"⟩
      (handler ⟨1700000000000, "2023-11-14T22:13:20.000Z"⟩ Store.empty
        { method := "POST", userId := some "u1", action := some "save-chat", chatId := none,
          body := some (JsValue.obj [("title", JsValue.str "Hi"),
            ("messages", JsValue.arr
              [JsValue.obj [("role", JsValue.str "user"), ("content", JsValue.str "Hi")]]),
            ("model", JsValue.str "m1")]) }).2
      { method := "GET", userId := some "u1", action := some "history", chatId := none,
        body := none }).1.body =
      some (Json.obj [("success", Json.bool true),
        ("data", Json.arr
          [Json.obj [("id", Json.str "1700000000000"), ("title", Json.str "Hi"),
            ("messages", Json.arr
              [Json.obj [("role", Json.str "user"), ("content", Json.str "Hi")]]),
            ("timestamp", Json.str "2023-11-14T22:13:20.000Z"),
            ("model", Json.str "m1")]])]) := by
  obtain ⟨id, title, messages, model, s, h1, h2, h3, h4, hs, r1, r2, _, _, r5, _⟩ :=
    save_chat_spec ⟨1700000000000, "2023-11-14T22:13:20.000Z"⟩
      ⟨1700000000001, "2023-11-14T22:13:20.001Z"⟩ Store.empty
      { method := "POST", userId := some "u1", action := some "save-chat", chatId := none,
        body := some (JsValue.obj [("title", JsValue.str "Hi"),
          ("messages", JsValue.arr
            [JsValue.obj [("role", JsValue.str "user"), ("content", JsValue.str "Hi")]]),
          ("model", JsValue.str "m1")]) }
      { method := "GET", userId := some "u1", action := some "history", chatId := none,
        body := none }
      _ [] rfl rfl rfl (by simp) (Or.inr ⟨rfl, rfl⟩) rfl rfl rfl
  have e1 : id = none := (Option.some.inj h1).symm
  have e2 : title = some (JsValue.str "Hi") := (Option.some.inj h2).symm
  have e3 : messages = some (JsValue.arr
      [JsValue.obj [("role", JsValue.str "user"), ("content", JsValue.str "Hi")]]) :=
    (Option.some.inj h3).symm
  have e4 : model = some (JsValue.str "m1") := (Option.some.inj h4).symm
  subst e1 e2 e3 e4
  have es : s = Json.obj [("id", Json.str "1700000000000"), ("title", Json.str "Hi"),
      ("messages", Json.arr
        [Json.obj [("role", Json.str "user"), ("content", Json.str "Hi")]]),
      ("timestamp", Json.str "2023-11-14T22:13:20.000Z"),
      ("model", Json.str "m1")] := hs
  rw [es] at r2 r5
  exact ⟨r1, r2, r5⟩

/-! ## C5, C6, C7: delete-chat, clear-history, settings -/

theorem filterHistory_eq_self (chatId : Option String) (h : List Json)
    (hid : ∀ c ∈ h, ∃ v, getProp c "id" = some v ∧ strictEq v chatId = false) :
    filterHistory chatId h = some h := by
  induction h with
  | nil => rfl
  | cons c cs ih =>
    obtain ⟨v, hv, hne⟩ := hid c (List.mem_cons_self c cs)
    have ih2 := ih (fun d hd => hid d (List.mem_cons_of_mem c hd))
    simp [filterHistory, hv, ih2, hne]

theorem filterHistory_sublist (chatId : Option String) :
    ∀ (h ys : List Json), filterHistory chatId h = some ys → ys.Sublist h := by
  intro h
  induction h with
  | nil =>
    intro ys hys
    simp [filterHistory] at hys
    subst hys
    exact List.Sublist.refl _
  | cons c cs ih =>
    intro ys hys
    cases hv : getProp c "id" with
    | none => simp [filterHistory, hv] at hys
    | some v =>
      cases hr : filterHistory chatId cs with
      | none => simp [filterHistory, hv, hr] at hys
      | some rest =>
        simp only [filterHistory, hv, hr, Option.bind_eq_bind, Option.some_bind,
          Option.pure_def, Option.some.injEq] at hys
        have hsub := ih rest hr
        split_ifs at hys with hq
        · subst hys
          exact hsub.cons c
        · subst hys
          exact hsub.cons₂ c

theorem Store.set_eq_self (st : Store) (k : String) (v : Json) (h : st k = some v) :
    st.set k v = st := by
  funext k'
  simp only [Store.set]
  split_ifs with hk
  · rw [hk, h]
  · rfl

theorem handler_delete_chat (clk : Clock) (st : Store) (req : Request)
    (hm : req.method = "DELETE") (ha : req.action = some "delete-chat") :
    handler clk st req =
      match st (historyKey (effectiveUserId req.userId)) with
      | some (Json.arr xs) =>
        match filterHistory req.chatId xs with
        | some ys =>
          (okMessage "Chat deleted",
            st.set (historyKey (effectiveUserId req.userId)) (Json.arr ys))
        | none => (errorResponse 500 "Internal server error", st)
      | some _ => (errorResponse 500 "Internal server error", st)
      | none => (okMessage "Chat deleted", st) := by
  simp only [handler, handlerTry, hm, ha, String.reduceEq, Option.some.injEq, if_false,
    if_true]
  generalize st (historyKey (effectiveUserId req.userId)) = v
  cases v with
  | none => rfl
  | some j =>
    cases j with
    | arr xs =>
      dsimp only
      generalize filterHistory req.chatId xs = r
      cases r <;> rfl
    | _ => rfl

/-- C5: for every user id parameter, every history `h` stored for the user (`[]` when
nothing is stored) and every `chatId` parameter (absent included) that is strictly equal
to the `id` of no entry of `h`, `delete-chat` answers 200 with `success: true`, leaves
the store as it was, and a following `GET history` of the user returns `h`, as it did
before the request. -/
theorem delete_chat_absent_id (clk clk2 : Clock) (st : Store) (req g : Request)
    (h : List Json)
    (hm : req.method = "DELETE") (ha : req.action = some "delete-chat")
    (hh : st (historyKey (effectiveUserId req.userId)) = some (Json.arr h) ∨
      (st (historyKey (effectiveUserId req.userId)) = none ∧ h = []))
    (hid : ∀ c ∈ h, ∃ v, getProp c "id" = some v ∧ strictEq v req.chatId = false)
    (hgm : g.method = "GET") (hga : g.action = some "history")
    (hgu : g.userId = req.userId) :
    (handler clk st req).1 = okMessage "Chat deleted" ∧
    (handler clk st req).1.status = 200 ∧
    (handler clk st req).2 = st ∧
    (handler clk2 st g).1 = okData (Json.arr h) ∧
    (handler clk2 (handler clk st req).2 g).1 = okData (Json.arr h) := by
  have hreq : handler clk st req = (okMessage "Chat deleted", st) := by
    rw [handler_delete_chat clk st req hm ha]
    rcases hh with hh | ⟨hh, _⟩
    · simp only [hh, filterHistory_eq_self req.chatId h hid]
      rw [Store.set_eq_self st _ _ hh]
    · simp only [hh]
  have hget : (handler clk2 st g).1 = okData (Json.arr h) := by
    rw [handler_get_history clk2 st g hgm hga, hgu]
    rcases hh with hh | ⟨hh, rfl⟩ <;> simp only [hh]
  rw [hreq]
  exact ⟨rfl, rfl, rfl, hget, hget⟩

/-- C5 at a stored history of two sessions and a `chatId` that neither has. -/
theorem delete_chat_absent_id_witness :
    (handler ⟨1, "t"⟩
      (Store.empty.set (historyKey "u1")
        (Json.arr [Json.obj [("id", Json.str "a")], Json.obj [("id", Json.str "b")]]))
      { method := "DELETE", userId := some "u1", action := some "delete-chat",
        chatId := some "c", body := none }).1 = okMessage "Chat deleted" ∧
    (handler ⟨1, "t"⟩
      (Store.empty.set (historyKey "u1")
        (Json.arr [Json.obj [("id", Json.str "a")], Json.obj [("id", Json.str "b")]]))
      { method := "DELETE", userId := some "u1", action := some "delete-chat",
        chatId := some "c", body := none }).1.status = 200 ∧
    (handler ⟨1, "t"⟩
      (Store.empty.set (historyKey "u1")
        (Json.arr [Json.obj [("id", Json.str "a")], Json.obj [("id", Json.str "b")]]))
      { method := "DELETE", userId := some "u1", action := some "delete-chat",
        chatId := some "c", body := none }).2 =
      Store.empty.set (historyKey "u1")
        (Json.arr [Json.obj [("id", Json.str "a")], Json.obj [("id", Json.str "b")]]) ∧
    (handler ⟨2, "t"⟩
      (Store.empty.set (historyKey "u1")
        (Json.arr [Json.obj [("id", Json.str "a")], Json.obj [("id", Json.str "b")]]))
      { method := "GET", userId := some "u1", action := some "history", chatId := none,
        body := none }).1 =
      okData (Json.arr [Json.obj [("id", Json.str "a")], Json.obj [("id", Json.str "b")]]) ∧
    (handler ⟨2, "t"⟩
      (handler ⟨1, "t"⟩
        (Store.empty.set (historyKey "u1")
          (Json.arr [Json.obj [("id", Json.str "a")], Json.obj [("id", Json.str "b")]]))
        { method := "DELETE", userId := some "u1", action := some "delete-chat",
          chatId := some "c", body := none }).2
      { method := "GET", userId := some "u1", action := some "history", chatId := none,
        body := none }).1 =
      okData (Json.arr [Json.obj [("id", Json.str "a")], Json.obj [("id", Json.str "b")]]) :=
  delete_chat_absent_id ⟨1, "t"⟩ ⟨2, "t"⟩
    (Store.empty.set (historyKey "u1")
      (Json.arr [Json.obj [("id", Json.str "a")], Json.obj [("id", Json.str "b")]]))
    { method := "DELETE", userId := some "u1", action := some "delete-chat",
      chatId := some "c", body := none }
    { method := "GET", userId := some "u1", action := some "history", chatId := none,
      body := none }
    [Json.obj [("id", Json.str "a")], Json.obj [("id", Json.str "b")]]
    rfl rfl (Or.inl rfl)
    (by
      intro c hc
      simp only [List.mem_cons, List.mem_singleton, List.not_mem_nil, or_false] at hc
      rcases hc with rfl | rfl
      · exact ⟨some (Json.str "a"), rfl, rfl⟩
      · exact ⟨some (Json.str "b"), rfl, rfl⟩)
    rfl rfl rfl

/-- C6: for every user id parameter and every store, `clear-history` answers 200 with
`success: true` and leaves no history stored for the user, and a `GET history` of the
same user issued next answers 200 with `success: true` and `data` the empty list. -/
theorem clear_history_then_get (clk clk2 : Clock) (st : Store) (req g : Request)
    (hm : req.method = "DELETE") (ha : req.action = some "clear-history")
    (hgm : g.method = "GET") (hga : g.action = some "history")
    (hgu : g.userId = req.userId) :
    (handler clk st req).1.status = 200 ∧
    (handler clk st req).1.body =
      some (Json.obj [("success", Json.bool true),
        ("message", Json.str "History cleared")]) ∧
    (handler clk st req).2 (historyKey (effectiveUserId req.userId)) = none ∧
    (handler clk2 (handler clk st req).2 g).1.status = 200 ∧
    (handler clk2 (handler clk st req).2 g).1.body =
      some (Json.obj [("success", Json.bool true), ("data", Json.arr [])]) := by
  have hreq : handler clk st req =
      (okMessage "History cleared", st.delete (historyKey (effectiveUserId req.userId))) := by
    simp [handler, handlerTry, hm, ha]
  rw [hreq, handler_get_history clk2 _ g hgm hga, hgu]
  simp [Store.delete, okData, okMessage]

/-- C6 at a store that holds a history of one session for the user. -/
theorem clear_history_then_get_witness :
    (handler ⟨1, "t"⟩
      (Store.empty.set (historyKey "u1") (Json.arr [Json.obj [("id", Json.str "a")]]))
      { method := "DELETE", userId := some "u1", action := some "clear-history",
        chatId := none, body := none }).1.status = 200 ∧
    (handler ⟨1, "t"⟩
      (Store.empty.set (historyKey "u1") (Json.arr [Json.obj [("id", Json.str "a")]]))
      { method := "DELETE", userId := some "u1", action := some "clear-history",
        chatId := none, body := none }).1.body =
      some (Json.obj [("success", Json.bool true),
        ("message", Json.str "History cleared")]) ∧
    (handler ⟨1, "t"⟩
      (Store.empty.set (historyKey "u1") (Json.arr [Json.obj [("id", Json.str "a")]]))
      { method := "DELETE", userId := some "u1", action := some "clear-history",
        chatId := none, body := none }).2 (historyKey (effectiveUserId (some "u1"))) = none ∧
    (handler ⟨2, "t"⟩
      (handler ⟨1, "t"⟩
        (Store.empty.set (historyKey "u1") (Json.arr [Json.obj [("id", Json.str "a")]]))
        { method := "DELETE", userId := some "u1", action := some "clear-history",
          chatId := none, body := none }).2
      { method := "GET", userId := some "u1", action := some "history", chatId := none,
        body := none }).1.status = 200 ∧
    (handler ⟨2, "t"⟩
      (handler ⟨1, "t"⟩
        (Store.empty.set (historyKey "u1") (Json.arr [Json.obj [("id", Json.str "a")]]))
        { method := "DELETE", userId := some "u1", action := some "clear-history",
          chatId := none, body := none }).2
      { method := "GET", userId := some "u1", action := some "history", chatId := none,
        body := none }).1.body =
      some (Json.obj [("success", Json.bool true), ("data", Json.arr [])]) :=
  clear_history_then_get ⟨1, "t"⟩ ⟨2, "t"⟩
    (Store.empty.set (historyKey "u1") (Json.arr [Json.obj [("id", Json.str "a")]]))
    { method := "DELETE", userId := some "u1", action := some "clear-history",
      chatId := none, body := none }
    { method := "GET", userId := some "u1", action := some "history", chatId := none,
      body := none }
    rfl rfl rfl rfl rfl

/-- C7, as stated, fails: the settings `{"maxTokens": 1e999}` are read by `req.json()`
as `{maxTokens: Infinity}` and written by `JSON.stringify` as `{"maxTokens": null}`, so
the following `GET settings` returns `{maxTokens: null}`, which is not the body. -/
theorem settings_round_trip_counterexample :
    (handler ⟨2, "t"⟩
      (handler ⟨1, "t"⟩ Store.empty
        { method := "POST", userId := some "u1", action := some "save-settings",
          chatId := none,
          body := some (JsValue.obj [("maxTokens", JsValue.num JsNumber.posInf)]) }).2
      { method := "GET", userId := some "u1", action := some "settings", chatId := none,
        body := none }).1.body =
      some (Json.obj [("success", Json.bool true),
        ("data", Json.obj [("maxTokens", Json.null)])]) ∧
    (Json.obj [("maxTokens", Json.null)]).toJs ≠
      JsValue.obj [("maxTokens", JsValue.num JsNumber.posInf)] := by
  refine ⟨rfl, fun h => ?_⟩
  have h2 : JsValue.obj [("maxTokens", JsValue.null)] =
      JsValue.obj [("maxTokens", JsValue.num JsNumber.posInf)] := h
  simp at h2

/-- C7, amended: for every user id parameter, every store and every JSON body `b`,
`save-settings` answers 200 with `success: true`, and a `GET settings` of the same user
issued next answers 200 with `success: true` and `data` equal to `b` as
`JSON.stringify` writes it, whatever was stored before: `data` is `b` itself when `b`
is a value without `-0`, `Infinity` and `-Infinity`, and these three numbers come back
as `0`, `null` and `null`. A `GET settings` of a user with nothing stored returns the
empty object. -/
theorem settings_round_trip (clk clk2 : Clock) (st st0 : Store) (req g : Request)
    (b : JsValue)
    (hm : req.method = "POST") (ha : req.action = some "save-settings")
    (hb : req.body = some b)
    (hgm : g.method = "GET") (hga : g.action = some "settings")
    (hgu : g.userId = req.userId)
    (h0 : st0 (settingsKey (effectiveUserId g.userId)) = none) :
    (handler clk st req).1.status = 200 ∧
    (handler clk st req).1.body =
      some (Json.obj [("success", Json.bool true),
        ("message", Json.str "Settings saved")]) ∧
    (handler clk2 (handler clk st req).2 g).1.status = 200 ∧
    (handler clk2 (handler clk st req).2 g).1.body =
      some (Json.obj [("success", Json.bool true), ("data", b.written)]) ∧
    (∀ j : Json, b = j.toJs →
      (handler clk2 (handler clk st req).2 g).1.body =
        some (Json.obj [("success", Json.bool true), ("data", j)])) ∧
    (JsValue.num JsNumber.negZero).written = Json.num 0 ∧
    (JsValue.num JsNumber.posInf).written = Json.null ∧
    (JsValue.num JsNumber.negInf).written = Json.null ∧
    (handler clk2 st0 g).1.status = 200 ∧
    (handler clk2 st0 g).1.body =
      some (Json.obj [("success", Json.bool true), ("data", Json.obj [])]) := by
  have hreq : handler clk st req =
      (okMessage "Settings saved",
        st.set (settingsKey (effectiveUserId req.userId)) b.written) := by
    simp [handler, handlerTry, hm, ha, hb]
  have hget : (handler clk2 (handler clk st req).2 g).1 = okData b.written := by
    rw [hreq, handler_get_settings clk2 _ g hgm hga, hgu]
    simp [Store.set]
  have hget0 : (handler clk2 st0 g).1 = okData (Json.obj []) := by
    rw [handler_get_settings clk2 _ g hgm hga, h0]
  rw [hget, hget0, hreq]
  refine ⟨rfl, rfl, rfl, rfl, ?_, rfl, rfl, rfl, rfl, rfl⟩
  intro j hj
  rw [hj, written_toJs]
  rfl

/-- The amended C7 at the settings of the specification, `{maxTokens: 1000,
temperature: 0.2}`, saved over older settings of the same user. -/
theorem settings_round_trip_witness :
    (handler ⟨1, "t"⟩
      (Store.empty.set (settingsKey "u1") (Json.obj [("soundEnabled", Json.bool true)]))
      { method := "POST", userId := some "u1", action := some "save-settings",
        chatId := none,
        body := some (JsValue.obj [("maxTokens", JsValue.num (JsNumber.finite 1000)),
          ("temperature", JsValue.num (JsNumber.finite double_0_2))]) }).1.status = 200 ∧
    (handler ⟨2, "t"⟩
      (handler ⟨1, "t"⟩
        (Store.empty.set (settingsKey "u1") (Json.obj [("soundEnabled", Json.bool true)]))
        { method := "POST", userId := some "u1", action := some "save-settings",
          chatId := none,
          body := some (JsValue.obj [("maxTokens", JsValue.num (JsNumber.finite 1000)),
            ("temperature", JsValue.num (JsNumber.finite double_0_2))]) }).2
      { method := "GET", userId := some "u1", action := some "settings", chatId := none,
        body := none }).1.body =
      some (Json.obj [("success", Json.bool true),
        ("data", Json.obj [("maxTokens", Json.num 1000),
          ("temperature", Json.num double_0_2)])]) ∧
    (handler ⟨2, "t"⟩ Store.empty
      { method := "GET", userId := some "u1", action := some "settings", chatId := none,
        body := none }).1.body =
      some (Json.obj [("success", Json.bool true), ("data", Json.obj [])]) :=
  ⟨(settings_round_trip ⟨1, "t"⟩ ⟨2, "t"⟩
      (Store.empty.set (settingsKey "u1") (Json.obj [("soundEnabled", Json.bool true)]))
      Store.empty
      { method := "POST", userId := some "u1", action := some "save-settings",
        chatId := none,
        body := some (JsValue.obj [("maxTokens", JsValue.num (JsNumber.finite 1000)),
          ("temperature", JsValue.num (JsNumber.finite double_0_2))]) }
      { method := "GET", userId := some "u1", action := some "settings", chatId := none,
        body := none }
      _ rfl rfl rfl rfl rfl rfl rfl).1,
    (settings_round_trip ⟨1, "t"⟩ ⟨2, "t"⟩
      (Store.empty.set (settingsKey "u1") (Json.obj [("soundEnabled", Json.bool true)]))
      Store.empty
      { method := "POST", userId := some "u1", action := some "save-settings",
        chatId := none,
        body := some (JsValue.obj [("maxTokens", JsValue.num (JsNumber.finite 1000)),
          ("temperature", JsValue.num (JsNumber.finite double_0_2))]) }
      { method := "GET", userId := some "u1", action := some "settings", chatId := none,
        body := none }
      _ rfl rfl rfl rfl rfl rfl rfl).2.2.2.2.1
      (Json.obj [("maxTokens", Json.num 1000), ("temperature", Json.num double_0_2)]) rfl,
    (settings_round_trip ⟨1, "t"⟩ ⟨2, "t"⟩
      (Store.empty.set (settingsKey "u1") (Json.obj [("soundEnabled", Json.bool true)]))
      Store.empty
      { method := "POST", userId := some "u1", action := some "save-settings",
        chatId := none,
        body := some (JsValue.obj [("maxTokens", JsValue.num (JsNumber.finite 1000)),
          ("temperature", JsValue.num (JsNumber.finite double_0_2))]) }
      { method := "GET", userId := some "u1", action := some "settings", chatId := none,
        body := none }
      _ rfl rfl rfl rfl rfl rfl rfl).2.2.2.2.2.2.2.2.2⟩

/-! ## C8: requests that match no route -/

/-- C8, as stated, fails: a `POST` with no `action` whose body is not JSON is answered
500, not 400, because `req.json()` runs before the action is looked at. -/
theorem unmatched_post_counterexample :
    (handler ⟨1, "t"⟩ Store.empty
      { method := "POST", userId := some "u1", action := none, chatId := none,
        body := none }).1.status = 500 ∧
    (handler ⟨1, "t"⟩ Store.empty
      { method := "POST", userId := some "u1", action := none, chatId := none,
        body := none }).1.status ≠ 400 := by
  refine ⟨rfl, by decide⟩

/-- C8, amended: a request with method `GET`, `POST` or `DELETE` whose `action` is absent
or not among the actions of that method is answered 400 `Invalid action`, except that a
`POST` whose body is not JSON is answered 500; a request with a method other than `GET`,
`POST`, `DELETE` and `OPTIONS` is answered 405. The store is unchanged in every case. -/
theorem unmatched_routes (clk : Clock) (st : Store) (req req2 : Request)
    (hm : req.method = "GET" ∨ req.method = "POST" ∨ req.method = "DELETE")
    (ha : ∀ a, req.action = some a → a ∉ routeActions req.method)
    (hm2 : req2.method ≠ "GET" ∧ req2.method ≠ "POST" ∧ req2.method ≠ "DELETE" ∧
      req2.method ≠ "OPTIONS") :
    handler clk st req =
      (if req.method = "POST" ∧ req.body.isNone = true then
          errorResponse 500 "Internal server error"
        else errorResponse 400 "Invalid action", st) ∧
    handler clk st req2 = (errorResponse 405 "Method not allowed", st) ∧
    (handler clk st req2).1.status = 405 := by
  obtain ⟨h1, h2, h3, h4⟩ := hm2
  have hr2 : handler clk st req2 = (errorResponse 405 "Method not allowed", st) := by
    simp [handler, handlerTry, h1, h2, h3, h4]
  refine ⟨?_, hr2, by rw [hr2]; rfl⟩
  rcases hm with hm | hm | hm
  · have n1 : req.action ≠ some "history" := fun h => by
      have := ha _ h
      simp [routeActions, hm] at this
    have n2 : req.action ≠ some "settings" := fun h => by
      have := ha _ h
      simp [routeActions, hm] at this
    simp [handler, handlerTry, hm, n1, n2]
  · have n1 : req.action ≠ some "save-chat" := fun h => by
      have := ha _ h
      simp [routeActions, hm] at this
    have n2 : req.action ≠ some "save-settings" := fun h => by
      have := ha _ h
      simp [routeActions, hm] at this
    cases hb : req.body with
    | none => simp [handler, handlerTry, hm, hb]
    | some b => simp [handler, handlerTry, hm, n1, n2, hb]
  · have n1 : req.action ≠ some "clear-history" := fun h => by
      have := ha _ h
      simp [routeActions, hm] at this
    have n2 : req.action ≠ some "delete-chat" := fun h => by
      have := ha _ h
      simp [routeActions, hm] at this
    simp [handler, handlerTry, hm, n1, n2]

/-- The amended C8 at a `DELETE` with the action of another method and at a `PUT`. -/
theorem unmatched_routes_witness :
    handler ⟨1, "t"⟩ Store.empty
        { method := "DELETE", userId := none, action := some "history", chatId := none,
          body := none } =
      (if (Request.mk "DELETE" none (some "history") none none).method = "POST" ∧
            (Request.mk "DELETE" none (some "history") none none).body.isNone = true then
          errorResponse 500 "Internal server error"
        else errorResponse 400 "Invalid action", Store.empty) ∧
    handler ⟨1, "t"⟩ Store.empty
        { method := "PUT", userId := none, action := some "save-chat", chatId := none,
          body := some (JsValue.obj []) } =
      (errorResponse 405 "Method not allowed", Store.empty) ∧
    (handler ⟨1, "t"⟩ Store.empty
        { method := "PUT", userId := none, action := some "save-chat", chatId := none,
          body := some (JsValue.obj []) }).1.status = 405 :=
  unmatched_routes ⟨1, "t"⟩ Store.empty
    { method := "DELETE", userId := none, action := some "history", chatId := none,
      body := none }
    { method := "PUT", userId := none, action := some "save-chat", chatId := none,
      body := some (JsValue.obj []) }
    (Or.inr (Or.inr rfl))
    (by
      intro a h
      cases h
      decide)
    (by decide)

/-! ## C9: session ids in the stored history -/

theorem storedHistory_set (st : Store) (u : String) (xs : List Json) :
    storedHistory (st.set (historyKey u) (Json.arr xs)) u = xs := by
  simp [storedHistory, Store.set]

/-- The two outcomes of `save-chat`: the new session is written in front of the stored
history, or the request fails with 500 and the store is as before. -/
theorem handler_save_chat_cases (clk : Clock) (st : Store) (req : Request)
    (hm : req.method = "POST") (ha : req.action = some "save-chat") :
    (∃ b chat, req.body = some b ∧ b ≠ JsValue.null ∧ newChat clk b = some chat ∧
      (st (historyKey (effectiveUserId req.userId)) = none ∨
        ∃ h, st (historyKey (effectiveUserId req.userId)) = some (Json.arr h)) ∧
      handler clk st req =
        (okData chat.written, st.set (historyKey (effectiveUserId req.userId))
          (Json.arr
            ((chat.written :: storedHistory st (effectiveUserId req.userId)).take 50)))) ∨
    (handler clk st req = (errorResponse 500 "Internal server error", st) ∧
      (req.body = none ∨ req.body = some JsValue.null ∨
        ∃ j, st (historyKey (effectiveUserId req.userId)) = some j ∧ ∀ h, j ≠ Json.arr h)) := by
  cases hb : req.body with
  | none =>
    right
    simp [handler, handlerTry, hm, hb]
  | some b =>
    cases hc : newChat clk b with
    | none =>
      right
      have hnull : b = JsValue.null := (newChat_eq_none_iff clk b).1 hc
      refine ⟨?_, Or.inr (Or.inl (by rw [hnull]))⟩
      simp [handler, handlerTry, hm, ha, hb, hc]
    | some chat =>
      have hnn : b ≠ JsValue.null := fun h => by
        rw [h, newChat_null] at hc
        exact Option.noConfusion hc
      cases hst : st (historyKey (effectiveUserId req.userId)) with
      | none =>
        left
        refine ⟨b, chat, rfl, hnn, hc, Or.inl rfl, ?_⟩
        rw [handler_save_chat clk st req b chat hm ha hb hc [] (Or.inr ⟨hst, rfl⟩)]
        simp [storedHistory, hst]
      | some j =>
        by_cases hj : ∃ h, j = Json.arr h
        · obtain ⟨h, rfl⟩ := hj
          left
          refine ⟨b, chat, rfl, hnn, hc, Or.inr ⟨h, rfl⟩, ?_⟩
          rw [handler_save_chat clk st req b chat hm ha hb hc h (Or.inl hst)]
          simp [storedHistory, hst]
        · right
          refine ⟨?_, Or.inr (Or.inr ⟨j, rfl, fun h hh => hj ⟨h, hh⟩⟩)⟩
          cases j with
          | arr h => exact absurd ⟨h, rfl⟩ hj
          | _ => simp [handler, handlerTry, hm, ha, hb, hc, hst]

theorem take_cons_fifty {α : Type} (x : α) (xs : List α) :
    (x :: xs).take 50 = x :: xs.take 49 := rfl

/-- C9, as stated, fails: `save-chat` with the `id` of a stored session writes a second
session with that `id` in front of the first. -/
theorem save_chat_duplicate_id_counterexample :
    ((storedHistory
        (Store.empty.set (historyKey "u1") (Json.arr [Json.obj [("id", Json.str "a")]]))
        "u1").map idOf).Nodup ∧
    ¬ ((storedHistory
        (handler ⟨1, "t"⟩
          (Store.empty.set (historyKey "u1") (Json.arr [Json.obj [("id", Json.str "a")]]))
          { method := "POST", userId := some "u1", action := some "save-chat",
            chatId := none, body := some (JsValue.obj [("id", JsValue.str "a")]) }).2
        "u1").map idOf).Nodup := by
  constructor
  · have h : (storedHistory
        (Store.empty.set (historyKey "u1") (Json.arr [Json.obj [("id", Json.str "a")]]))
        "u1").map idOf = [some (some (Json.str "a"))] := rfl
    rw [h]
    exact List.nodup_singleton _
  · have h : (storedHistory
        (handler ⟨1, "t"⟩
          (Store.empty.set (historyKey "u1") (Json.arr [Json.obj [("id", Json.str "a")]]))
          { method := "POST", userId := some "u1", action := some "save-chat",
            chatId := none, body := some (JsValue.obj [("id", JsValue.str "a")]) }).2
        "u1").map idOf = [some (some (Json.str "a")), some (some (Json.str "a"))] := rfl
    rw [h]
    simp

/-- C9, amended: if the history stored for a user has pairwise distinct session ids, it
still has after any `delete-chat` request of the user (`reqD`); and after a `save-chat`
request of the user (`req`) it has pairwise distinct ids if and only if the session
that the request writes, if it writes one, has an `id` that none of the first 49 stored
sessions has (the new session is put in front and the list is cut to 50, so a 50th
stored session is dropped). -/
theorem ids_nodup_preserved (clk : Clock) (st : Store) (req reqD : Request)
    (hnd : ((storedHistory st (effectiveUserId req.userId)).map idOf).Nodup)
    (hm : req.method = "POST") (ha : req.action = some "save-chat")
    (hndD : ((storedHistory st (effectiveUserId reqD.userId)).map idOf).Nodup)
    (hmD : reqD.method = "DELETE") (haD : reqD.action = some "delete-chat") :
    (((storedHistory (handler clk st req).2 (effectiveUserId req.userId)).map idOf).Nodup ↔
      ∀ b s, req.body = some b → newChat clk b = some s →
        idOf s.written ∉
          ((storedHistory st (effectiveUserId req.userId)).take 49).map idOf) ∧
    ((storedHistory (handler clk st reqD).2 (effectiveUserId reqD.userId)).map idOf).Nodup := by
  constructor
  · rcases handler_save_chat_cases clk st req hm ha with
      ⟨b, chat, hb, _, hc, _, hr⟩ | ⟨hr, hfail⟩
    · rw [hr, storedHistory_set, take_cons_fifty, List.map_cons, List.nodup_cons]
      have htake : (((storedHistory st (effectiveUserId req.userId)).take 49).map idOf).Nodup :=
        hnd.sublist ((List.take_sublist _ _).map idOf)
      constructor
      · rintro ⟨hni, _⟩ b2 s2 hb2 hs2
        rw [hb] at hb2
        cases hb2
        rw [hc] at hs2
        cases hs2
        exact hni
      · intro hfresh
        exact ⟨hfresh b chat hb hc, htake⟩
    · rw [hr]
      refine ⟨fun _ b s hb hs => ?_, fun _ => hnd⟩
      rcases hfail with h1 | h1 | ⟨j, hj, hne⟩
      · rw [h1] at hb
        exact Option.noConfusion hb
      · rw [h1] at hb
        cases hb
        rw [newChat_null] at hs
        exact Option.noConfusion hs
      · have hempty : storedHistory st (effectiveUserId req.userId) = [] := by
          simp only [storedHistory, hj]
          cases j with
          | arr h => exact absurd rfl (hne h)
          | _ => rfl
        rw [hempty]
        simp
  · rw [handler_delete_chat clk st reqD hmD haD]
    cases hst : st (historyKey (effectiveUserId reqD.userId)) with
    | none => exact hndD
    | some j =>
      cases j with
      | arr xs =>
        cases hf : filterHistory reqD.chatId xs with
        | none =>
          simp only [hf]
          exact hndD
        | some ys =>
          simp only [hf, storedHistory_set]
          have hxs : storedHistory st (effectiveUserId reqD.userId) = xs := by
            simp [storedHistory, hst]
          rw [hxs] at hndD
          exact hndD.sublist ((filterHistory_sublist reqD.chatId xs ys hf).map idOf)
      | _ => exact hndD

/-- The amended C9 at a stored history with the ids `a` and `b`: a `save-chat` with the
id `c` and a `delete-chat` of `a`. -/
theorem ids_nodup_preserved_witness :
    (((storedHistory
        (handler ⟨1, "t"⟩
          (Store.empty.set (historyKey "u1")
            (Json.arr [Json.obj [("id", Json.str "a")], Json.obj [("id", Json.str "b")]]))
          { method := "POST", userId := some "u1", action := some "save-chat",
            chatId := none, body := some (JsValue.obj [("id", JsValue.str "c")]) }).2
        (effectiveUserId (some "u1"))).map idOf).Nodup ↔
      ∀ b s, some (JsValue.obj [("id", JsValue.str "c")]) = some b →
        newChat ⟨1, "t"⟩ b = some s →
        idOf s.written ∉
          ((storedHistory
            (Store.empty.set (historyKey "u1")
              (Json.arr [Json.obj [("id", Json.str "a")], Json.obj [("id", Json.str "b")]]))
            (effectiveUserId (some "u1"))).take 49).map idOf) ∧
    ((storedHistory
        (handler ⟨1, "t"⟩
          (Store.empty.set (historyKey "u1")
            (Json.arr [Json.obj [("id", Json.str "a")], Json.obj [("id", Json.str "b")]]))
          { method := "DELETE", userId := some "u1", action := some "delete-chat",
            chatId := some "a", body := none }).2
        (effectiveUserId (some "u1"))).map idOf).Nodup :=
  ids_nodup_preserved ⟨1, "t"⟩
    (Store.empty.set (historyKey "u1")
      (Json.arr [Json.obj [("id", Json.str "a")], Json.obj [("id", Json.str "b")]]))
    { method := "POST", userId := some "u1", action := some "save-chat",
      chatId := none, body := some (JsValue.obj [("id", JsValue.str "c")]) }
    { method := "DELETE", userId := some "u1", action := some "delete-chat",
      chatId := some "a", body := none }
    (by
      have h : (storedHistory
          (Store.empty.set (historyKey "u1")
            (Json.arr [Json.obj [("id", Json.str "a")], Json.obj [("id", Json.str "b")]]))
          (effectiveUserId (some "u1"))).map idOf =
          [some (some (Json.str "a")), some (some (Json.str "b"))] := rfl
      rw [h]
      simp)
    rfl rfl
    (by
      have h : (storedHistory
          (Store.empty.set (historyKey "u1")
            (Json.arr [Json.obj [("id", Json.str "a")], Json.obj [("id", Json.str "b")]]))
          (effectiveUserId (some "u1"))).map idOf =
          [some (some (Json.str "a")), some (some (Json.str "b"))] := rfl
      rw [h]
      simp)
    rfl rfl

/-! ## Lemmas on the client history -/

theorem toDigitsCore_ne_nil (b : Nat) :
    ∀ (fuel n : Nat) (ds : List Char), ds ≠ [] → Nat.toDigitsCore b fuel n ds ≠ [] := by
  intro fuel
  induction fuel with
  | zero =>
    intro n ds hds
    simpa [Nat.toDigitsCore] using hds
  | succ f ih =>
    intro n ds hds
    simp only [Nat.toDigitsCore]
    split_ifs with h
    · exact List.cons_ne_nil _ _
    · exact ih _ _ (List.cons_ne_nil _ _)

theorem toString_nat_ne_empty (n : Nat) : toString n ≠ "" := by
  have hd : Nat.toDigits 10 n ≠ [] := by
    simp only [Nat.toDigits, Nat.toDigitsCore]
    split_ifs with h
    · exact List.cons_ne_nil _ _
    · exact toDigitsCore_ne_nil 10 _ _ _ (List.cons_ne_nil _ _)
  intro h
  apply hd
  have h2 : (Nat.toDigits 10 n).asString = "" := h
  have h3 := congrArg String.data h2
  simpa [List.asString] using h3

theorem activeId_ne_empty (clk : Clock) (cur : Option String) : activeId clk cur ≠ "" := by
  unfold activeId
  cases cur with
  | none => exact toString_nat_ne_empty _
  | some c =>
    simp only
    split_ifs with h
    · exact toString_nat_ne_empty _
    · exact h

theorem activeId_some_of_ne_empty (clk : Clock) {c : String} (hc : c ≠ "") :
    activeId clk (some c) = c := by
  simp [activeId, hc]

theorem updateChatHistory_currentChatId (clk : Clock) (s : State) :
    (updateChatHistory clk s).currentChatId = some (activeId clk s.currentChatId) := rfl

theorem updateChatHistory_messages (clk : Clock) (s : State) :
    (updateChatHistory clk s).messages = s.messages := rfl

theorem cap_eq_take {α : Type} (l : List α) :
    (if l.length > 50 then l.take 50 else l) = l.take 50 := by
  split_ifs with h
  · rfl
  · exact (List.take_of_length_le (by omega)).symm

theorem updateChatHistory_length_le (clk : Clock) (s : State) :
    (updateChatHistory clk s).chatHistory.length ≤ 50 := by
  simp only [updateChatHistory, cap_eq_take, List.length_take]
  exact Nat.min_le_left _ _

theorem mem_ids_iff_findIdx_lt (l : List Session) (cid : String) :
    l.findIdx (fun chat => decide (chat.id = cid)) < l.length ↔ cid ∈ l.map Session.id := by
  rw [List.findIdx_lt_length]
  simp only [decide_eq_true_eq, List.mem_map]

theorem map_set_of_eq {α β : Type} (f : α → β) (x : α) :
    ∀ (l : List α) (i : Nat), (∀ y, l[i]? = some y → f y = f x) →
      (l.set i x).map f = l.map f := by
  intro l
  induction l with
  | nil => intro i _; rfl
  | cons a l ih =>
    intro i h
    cases i with
    | zero =>
      have := h a (by simp)
      simp [this]
    | succ j =>
      have hj : ∀ y, l[j]? = some y → f y = f x := fun y hy => h y (by simpa using hy)
      simp [ih j hj]

theorem map_id_set_findIdx (l : List Session) (x : Session) :
    (l.set (l.findIdx (fun chat => decide (chat.id = x.id))) x).map Session.id =
      l.map Session.id := by
  apply map_set_of_eq
  intro y hy
  have := List.findIdx_of_getElem?_eq_some hy
  simpa using this

/-- The ids after `updateChatHistory`: the active id is put in front when it is not in
the history and there is a message; the order of the ids is otherwise as it was; the
first 50 are kept. -/
theorem ids_updateChatHistory (clk : Clock) (s : State) :
    (updateChatHistory clk s).ids =
      (if activeId clk s.currentChatId ∈ s.ids ∨ s.messages = [] then s.ids
        else activeId clk s.currentChatId :: s.ids).take 50 := by
  simp only [updateChatHistory, State.ids, cap_eq_take, List.map_take]
  congr 1
  by_cases hmem : activeId clk s.currentChatId ∈ s.chatHistory.map Session.id
  · have hlt := (mem_ids_iff_findIdx_lt _ _).2 hmem
    simp only [hlt, if_true, hmem, true_or]
    exact map_id_set_findIdx s.chatHistory
      { id := activeId clk s.currentChatId, title := titleOf s.messages,
        messages := s.messages, timestamp := clk.iso, model := s.currentModel }
  · have hlt : ¬ _ := fun h => hmem ((mem_ids_iff_findIdx_lt _ _).1 h)
    simp only [hlt, if_false, hmem, false_or]
    by_cases hmsg : s.messages = []
    · simp [hmsg]
    · have hpos : s.messages.length > 0 := List.length_pos.2 hmsg
      simp [hmsg, hpos]

/-! ## C3: the cap of 50 sessions -/

/-- C3: for every client state, whatever the length of its `chatHistory`, the history
has at most 50 entries after `updateChatHistory`; and for every store, whatever the
stored history, and every `save-chat` request, either the request is answered 200 and
the history written for the user is a list of at most 50 entries, or it is answered 500
and nothing is written. The request is answered 200 exactly when its body is JSON other
than `null` and the value stored for the user, if any, is a list. -/
theorem history_cap (clkc clk : Clock) (s : State) (st : Store) (req : Request)
    (hm : req.method = "POST") (ha : req.action = some "save-chat") :
    (updateChatHistory clkc s).chatHistory.length ≤ 50 ∧
    (((handler clk st req).1.status = 200 ∧
        ∃ xs, (handler clk st req).2 (historyKey (effectiveUserId req.userId)) =
            some (Json.arr xs) ∧ xs.length ≤ 50) ∨
      ((handler clk st req).1.status = 500 ∧ (handler clk st req).2 = st)) ∧
    ((handler clk st req).1.status = 200 ↔
      (∃ b, req.body = some b ∧ b ≠ JsValue.null) ∧
      (st (historyKey (effectiveUserId req.userId)) = none ∨
        ∃ h, st (historyKey (effectiveUserId req.userId)) = some (Json.arr h))) := by
  refine ⟨updateChatHistory_length_le clkc s, ?_⟩
  rcases handler_save_chat_cases clk st req hm ha with
    ⟨b, chat, hb, hnn, _, hst, hr⟩ | ⟨hr, hfail⟩
  · rw [hr]
    refine ⟨Or.inl ⟨rfl, (chat.written :: storedHistory st (effectiveUserId req.userId)).take 50,
      by simp only [Store.set, if_true], ?_⟩, ?_⟩
    · rw [List.length_take]
      exact Nat.min_le_left _ _
    · exact ⟨fun _ => ⟨⟨b, hb, hnn⟩, hst⟩, fun _ => rfl⟩
  · rw [hr]
    refine ⟨Or.inr ⟨rfl, rfl⟩, ?_⟩
    constructor
    · intro h
      have h5 : (500 : Nat) = 200 := h
      exact absurd h5 (by decide)
    · rintro ⟨⟨b, hb, hnn⟩, hst⟩
      exfalso
      rcases hfail with h1 | h1 | ⟨j, hj, hne⟩
      · rw [h1] at hb
        exact Option.noConfusion hb
      · rw [h1] at hb
        exact hnn (Option.some.inj hb).symm
      · rcases hst with h2 | ⟨h, h2⟩
        · rw [h2] at hj
          exact Option.noConfusion hj
        · rw [h2] at hj
          exact hne h (Option.some.inj hj).symm

/-- C3 at a client history of 60 sessions with one id and a stored history of 60 equal
entries. -/
theorem history_cap_witness :
    (updateChatHistory ⟨1, "t"⟩
      (initialState "m" (List.replicate 60 ⟨"a", [], [], "", "m"⟩))).chatHistory.length ≤ 50 ∧
    (((handler ⟨1, "t"⟩
          (Store.empty.set (historyKey "u1") (Json.arr (List.replicate 60 (Json.obj []))))
          { method := "POST", userId := some "u1", action := some "save-chat",
            chatId := none, body := some (JsValue.obj []) }).1.status = 200 ∧
        ∃ xs, (handler ⟨1, "t"⟩
          (Store.empty.set (historyKey "u1") (Json.arr (List.replicate 60 (Json.obj []))))
          { method := "POST", userId := some "u1", action := some "save-chat",
            chatId := none, body := some (JsValue.obj []) }).2
            (historyKey (effectiveUserId (some "u1"))) = some (Json.arr xs) ∧
          xs.length ≤ 50) ∨
      ((handler ⟨1, "t"⟩
          (Store.empty.set (historyKey "u1") (Json.arr (List.replicate 60 (Json.obj []))))
          { method := "POST", userId := some "u1", action := some "save-chat",
            chatId := none, body := some (JsValue.obj []) }).1.status = 500 ∧
        (handler ⟨1, "t"⟩
          (Store.empty.set (historyKey "u1") (Json.arr (List.replicate 60 (Json.obj []))))
          { method := "POST", userId := some "u1", action := some "save-chat",
            chatId := none, body := some (JsValue.obj []) }).2 =
          Store.empty.set (historyKey "u1")
            (Json.arr (List.replicate 60 (Json.obj []))))) ∧
    ((handler ⟨1, "t"⟩
        (Store.empty.set (historyKey "u1") (Json.arr (List.replicate 60 (Json.obj []))))
        { method := "POST", userId := some "u1", action := some "save-chat",
          chatId := none, body := some (JsValue.obj []) }).1.status = 200 ↔
      (∃ b, (some (JsValue.obj []) : Option JsValue) = some b ∧ b ≠ JsValue.null) ∧
      ((Store.empty.set (historyKey "u1") (Json.arr (List.replicate 60 (Json.obj []))))
          (historyKey (effectiveUserId (some "u1"))) = none ∨
        ∃ h, (Store.empty.set (historyKey "u1")
          (Json.arr (List.replicate 60 (Json.obj []))))
            (historyKey (effectiveUserId (some "u1"))) = some (Json.arr h))) :=
  history_cap ⟨1, "t"⟩ ⟨1, "t"⟩ (initialState "m" (List.replicate 60 ⟨"a", [], [], "", "m"⟩))
    (Store.empty.set (historyKey "u1") (Json.arr (List.replicate 60 (Json.obj []))))
    { method := "POST", userId := some "u1", action := some "save-chat",
      chatId := none, body := some (JsValue.obj []) }
    rfl rfl

/-! ## C10: startNewChat twice -/

theorem ids_startNewChat (now : Nat) (clk : Clock) (s : State) :
    (startNewChat now clk s).ids = s.ids.take 50 := by
  unfold startNewChat
  rw [ids_updateChatHistory]
  simp [State.ids]

/-- C10: for every client state and all clock values, two calls of `startNewChat` in a
row leave in `chatHistory` the first 50 session ids it had, in their order: every id
present afterwards was present before, and no id occurs more often than before. -/
theorem start_new_twice (now1 now2 : Nat) (clk1 clk2 : Clock) (s : State) :
    (startNewChat now2 clk2 (startNewChat now1 clk1 s)).ids = s.ids.take 50 ∧
    (startNewChat now2 clk2 (startNewChat now1 clk1 s)).ids ⊆ s.ids ∧
    (∀ id : String,
      (startNewChat now2 clk2 (startNewChat now1 clk1 s)).ids.count id ≤ s.ids.count id) ∧
    (startNewChat now2 clk2 (startNewChat now1 clk1 s)).chatHistory.length ≤
      s.chatHistory.length := by
  have h : (startNewChat now2 clk2 (startNewChat now1 clk1 s)).ids = s.ids.take 50 := by
    rw [ids_startNewChat, ids_startNewChat, List.take_take]
    simp
  have hsub : (s.ids.take 50).Sublist s.ids := List.take_sublist _ _
  refine ⟨h, ?_, ?_, ?_⟩
  · rw [h]
    exact hsub.subset
  · intro id
    rw [h]
    exact hsub.count_le id
  · have hl := congrArg List.length h
    simp only [State.ids, List.length_map, List.length_take] at hl
    rw [hl]
    exact Nat.min_le_right _ _

/-! ## C2: the upsert of `sendMessage` -/

set_option maxRecDepth 100000

theorem chatData_mem_updateChatHistory (clk : Clock) (s : State)
    (hlen : s.chatHistory.length ≤ 50)
    (h : activeId clk s.currentChatId ∈ s.ids ∨ s.messages ≠ []) :
    ∃ e ∈ (updateChatHistory clk s).chatHistory,
      e.id = activeId clk s.currentChatId ∧ e.messages = s.messages := by
  refine ⟨{ id := activeId clk s.currentChatId, title := titleOf s.messages,
            messages := s.messages, timestamp := clk.iso, model := s.currentModel },
    ?_, rfl, rfl⟩
  simp only [updateChatHistory, cap_eq_take]
  by_cases hmem : activeId clk s.currentChatId ∈ s.ids
  · have hlt := (mem_ids_iff_findIdx_lt _ _).2 hmem
    rw [if_pos hlt, List.take_of_length_le (by rw [List.length_set]; exact hlen)]
    exact List.mem_iff_getElem.2 ⟨_, by simpa using hlt, List.getElem_set_self _⟩
  · have hlt : ¬ _ := fun h => hmem ((mem_ids_iff_findIdx_lt _ _).1 h)
    have hmsg : s.messages.length > 0 := List.length_pos.2 (h.resolve_left hmem)
    rw [if_neg hlt, if_pos hmsg]
    simp

theorem recordExchange_step (u a : String) (usage : Option Nat) (clk : Clock) (s : State)
    (hnd : s.ids.Nodup) (hlen : s.chatHistory.length ≤ 50) :
    (recordExchange u a usage clk s).currentChatId = some (activeId clk s.currentChatId) ∧
    (recordExchange u a usage clk s).ids =
      (if activeId clk s.currentChatId ∈ s.ids then s.ids
        else (activeId clk s.currentChatId :: s.ids).take 50) ∧
    (recordExchange u a usage clk s).ids.Nodup ∧
    (recordExchange u a usage clk s).chatHistory.length ≤ 50 ∧
    activeId clk s.currentChatId ∈ (recordExchange u a usage clk s).ids ∧
    ∃ e ∈ (recordExchange u a usage clk s).chatHistory,
      e.id = activeId clk s.currentChatId ∧
      e.messages = (recordExchange u a usage clk s).messages := by
  have hmsg : s.messages ++ [({ role := "user", content := u } : Message),
      { role := "assistant", content := a }] ≠ [] := by simp
  have hids : (recordExchange u a usage clk s).ids =
      (if activeId clk s.currentChatId ∈ s.ids then s.ids
        else (activeId clk s.currentChatId :: s.ids).take 50) := by
    unfold recordExchange
    rw [ids_updateChatHistory]
    simp only [State.ids, hmsg, or_false]
    split_ifs with h
    · exact List.take_of_length_le (by simpa using hlen)
    · rfl
  refine ⟨rfl, hids, ?_, updateChatHistory_length_le _ _, ?_, ?_⟩
  · rw [hids]
    split_ifs with h
    · exact hnd
    · exact (List.nodup_cons.2 ⟨h, hnd⟩).sublist (List.take_sublist _ _)
  · rw [hids]
    split_ifs with h
    · exact h
    · simp
  · exact chatData_mem_updateChatHistory clk _ hlen (Or.inr hmsg)

theorem run_exchanges_same (ops : List Op) :
    ∀ (s : State) (cid : String), (∀ op ∈ ops, op.isExchange = true) →
      s.currentChatId = some cid → cid ≠ "" → cid ∈ s.ids → s.ids.Nodup →
      s.chatHistory.length ≤ 50 →
      (∃ e ∈ s.chatHistory, e.id = cid ∧ e.messages = s.messages) →
      (run s ops).currentChatId = some cid ∧ (run s ops).ids = s.ids ∧
      ∃ e ∈ (run s ops).chatHistory, e.id = cid ∧ e.messages = (run s ops).messages := by
  induction ops with
  | nil =>
    intro s cid _ hcur _ _ _ _ he
    exact ⟨hcur, rfl, he⟩
  | cons op rest ih =>
    intro s cid hops hcur hne hmem hnd hlen _
    have hop := hops op (List.mem_cons_self _ _)
    cases op with
    | recordExchange u a usage clk =>
      obtain ⟨h1, h2, h3, h4, h5, h6⟩ := recordExchange_step u a usage clk s hnd hlen
      have hact : activeId clk s.currentChatId = cid := by
        rw [hcur]
        exact activeId_some_of_ne_empty clk hne
      rw [hact] at h1 h2 h5 h6
      rw [if_pos hmem] at h2
      have := ih (recordExchange u a usage clk s) cid
        (fun o ho => hops o (List.mem_cons_of_mem _ ho)) h1 hne h5 h3 h4 h6
      simp only [run, List.foldl_cons, step] at this ⊢
      rw [h2] at this
      exact this
    | startNewChat _ _ => exact absurd hop (by simp [Op.isExchange])
    | loadChat _ => exact absurd hop (by simp [Op.isExchange])
    | clearAllChats _ _ _ => exact absurd hop (by simp [Op.isExchange])

/-- C2, as stated, fails: two sessions are created, the older one is loaded and an
exchange is recorded in it; the session is replaced where it was, at index 1, and the
entry at index 0 is the other session. It also fails on a history loaded with two
sessions of one id (both remain) and on a loaded history of 51 sessions whose last one
is active (it is replaced at index 50 and then cut off). -/
theorem upsert_not_moved_counterexample :
    (run (initialState "m" [])
      [Op.recordExchange "a" "b" none ⟨1, "t1"⟩, Op.startNewChat 2 ⟨2, "t2"⟩,
        Op.recordExchange "c" "d" none ⟨2, "t2"⟩, Op.loadChat "1",
        Op.recordExchange "e" "f" none ⟨3, "t3"⟩]).currentChatId = some "1" ∧
    (run (initialState "m" [])
      [Op.recordExchange "a" "b" none ⟨1, "t1"⟩, Op.startNewChat 2 ⟨2, "t2"⟩,
        Op.recordExchange "c" "d" none ⟨2, "t2"⟩, Op.loadChat "1",
        Op.recordExchange "e" "f" none ⟨3, "t3"⟩]).ids = ["2", "1"] ∧
    (run (initialState "m" [])
      [Op.recordExchange "a" "b" none ⟨1, "t1"⟩, Op.startNewChat 2 ⟨2, "t2"⟩,
        Op.recordExchange "c" "d" none ⟨2, "t2"⟩, Op.loadChat "1",
        Op.recordExchange "e" "f" none ⟨3, "t3"⟩]).ids.head? ≠ some "1" ∧
    (run (initialState "m" [⟨"1", [120], [], "t0", "m"⟩, ⟨"1", [121], [], "t0", "m"⟩])
      [Op.loadChat "1", Op.recordExchange "e" "f" none ⟨3, "t3"⟩]).ids.count "1" = 2 ∧
    (run (initialState "m"
        (List.replicate 50 ⟨"0", [120], [], "t0", "m"⟩ ++ [⟨"1", [121], [], "t0", "m"⟩]))
      [Op.loadChat "1", Op.recordExchange "e" "f" none ⟨3, "t3"⟩]).currentChatId =
        some "1" ∧
    (run (initialState "m"
        (List.replicate 50 ⟨"0", [120], [], "t0", "m"⟩ ++ [⟨"1", [121], [], "t0", "m"⟩]))
      [Op.loadChat "1", Op.recordExchange "e" "f" none ⟨3, "t3"⟩]).ids.count "1" = 0 := by
  refine ⟨by decide, by decide, by decide, by decide, by decide, by decide⟩

/-- C2, amended: for every client state whose `chatHistory` has at most 50 entries with
pairwise distinct ids, after any non-empty sequence of `recordExchange` calls
`chatHistory` contains exactly one entry whose id is `currentChatId`, and that entry
holds the messages of the active buffer; the entry is in front when the session was not
in the history before the calls, and otherwise it is where it was: the ids of the
history and their order are then unchanged. -/
theorem record_exchanges_spec (s : State) (ops : List Op)
    (hops : ∀ op ∈ ops, op.isExchange = true) (hne : ops ≠ [])
    (hnd : s.ids.Nodup) (hlen : s.chatHistory.length ≤ 50) :
    ∃ cid, (run s ops).currentChatId = some cid ∧
      (run s ops).ids.count cid = 1 ∧
      (run s ops).ids = (if cid ∈ s.ids then s.ids else (cid :: s.ids).take 50) ∧
      ∃ e ∈ (run s ops).chatHistory, e.id = cid ∧ e.messages = (run s ops).messages := by
  cases ops with
  | nil => exact absurd rfl hne
  | cons op rest =>
    have hop := hops op (List.mem_cons_self _ _)
    cases op with
    | recordExchange u a usage clk =>
      obtain ⟨h1, h2, h3, h4, h5, h6⟩ := recordExchange_step u a usage clk s hnd hlen
      obtain ⟨r1, r2, r3⟩ := run_exchanges_same rest (recordExchange u a usage clk s)
        (activeId clk s.currentChatId) (fun o ho => hops o (List.mem_cons_of_mem _ ho))
        h1 (activeId_ne_empty _ _) h5 h3 h4 h6
      have hrun : run s (Op.recordExchange u a usage clk :: rest) =
          run (recordExchange u a usage clk s) rest := rfl
      rw [hrun]
      refine ⟨activeId clk s.currentChatId, r1, ?_, ?_, r3⟩
      · rw [r2]
        exact List.count_eq_one_of_mem h3 h5
      · rw [r2, h2]
    | startNewChat _ _ => exact absurd hop (by simp [Op.isExchange])
    | loadChat _ => exact absurd hop (by simp [Op.isExchange])
    | clearAllChats _ _ _ => exact absurd hop (by simp [Op.isExchange])

/-- The amended C2 at the state of the counterexample (sessions `2` and `1`, the older
one loaded) and two exchanges. -/
theorem record_exchanges_spec_witness :
    ∃ cid,
      (run (run (initialState "m" [])
          [Op.recordExchange "a" "b" none ⟨1, "t1"⟩, Op.startNewChat 2 ⟨2, "t2"⟩,
            Op.recordExchange "c" "d" none ⟨2, "t2"⟩, Op.loadChat "1"])
        [Op.recordExchange "e" "f" none ⟨3, "t3"⟩,
          Op.recordExchange "g" "h" (some 7) ⟨4, "t4"⟩]).currentChatId = some cid ∧
      (run (run (initialState "m" [])
          [Op.recordExchange "a" "b" none ⟨1, "t1"⟩, Op.startNewChat 2 ⟨2, "t2"⟩,
            Op.recordExchange "c" "d" none ⟨2, "t2"⟩, Op.loadChat "1"])
        [Op.recordExchange "e" "f" none ⟨3, "t3"⟩,
          Op.recordExchange "g" "h" (some 7) ⟨4, "t4"⟩]).ids.count cid = 1 ∧
      (run (run (initialState "m" [])
          [Op.recordExchange "a" "b" none ⟨1, "t1"⟩, Op.startNewChat 2 ⟨2, "t2"⟩,
            Op.recordExchange "c" "d" none ⟨2, "t2"⟩, Op.loadChat "1"])
        [Op.recordExchange "e" "f" none ⟨3, "t3"⟩,
          Op.recordExchange "g" "h" (some 7) ⟨4, "t4"⟩]).ids =
        (if cid ∈ (run (initialState "m" [])
            [Op.recordExchange "a" "b" none ⟨1, "t1"⟩, Op.startNewChat 2 ⟨2, "t2"⟩,
              Op.recordExchange "c" "d" none ⟨2, "t2"⟩, Op.loadChat "1"]).ids
          then (run (initialState "m" [])
            [Op.recordExchange "a" "b" none ⟨1, "t1"⟩, Op.startNewChat 2 ⟨2, "t2"⟩,
              Op.recordExchange "c" "d" none ⟨2, "t2"⟩, Op.loadChat "1"]).ids
          else (cid :: (run (initialState "m" [])
            [Op.recordExchange "a" "b" none ⟨1, "t1"⟩, Op.startNewChat 2 ⟨2, "t2"⟩,
              Op.recordExchange "c" "d" none ⟨2, "t2"⟩, Op.loadChat "1"]).ids).take 50) ∧
      ∃ e ∈ (run (run (initialState "m" [])
          [Op.recordExchange "a" "b" none ⟨1, "t1"⟩, Op.startNewChat 2 ⟨2, "t2"⟩,
            Op.recordExchange "c" "d" none ⟨2, "t2"⟩, Op.loadChat "1"])
        [Op.recordExchange "e" "f" none ⟨3, "t3"⟩,
          Op.recordExchange "g" "h" (some 7) ⟨4, "t4"⟩]).chatHistory,
        e.id = cid ∧
        e.messages = (run (run (initialState "m" [])
          [Op.recordExchange "a" "b" none ⟨1, "t1"⟩, Op.startNewChat 2 ⟨2, "t2"⟩,
            Op.recordExchange "c" "d" none ⟨2, "t2"⟩, Op.loadChat "1"])
        [Op.recordExchange "e" "f" none ⟨3, "t3"⟩,
          Op.recordExchange "g" "h" (some 7) ⟨4, "t4"⟩]).messages :=
  record_exchanges_spec
    (run (initialState "m" [])
      [Op.recordExchange "a" "b" none ⟨1, "t1"⟩, Op.startNewChat 2 ⟨2, "t2"⟩,
        Op.recordExchange "c" "d" none ⟨2, "t2"⟩, Op.loadChat "1"])
    [Op.recordExchange "e" "f" none ⟨3, "t3"⟩, Op.recordExchange "g" "h" (some 7) ⟨4, "t4"⟩]
    (by
      intro op hop
      simp only [List.mem_cons, List.mem_singleton, List.not_mem_nil, or_false] at hop
      rcases hop with rfl | rfl <;> rfl)
    (by simp) (by decide) (by decide)

/-! ## C4: which sessions are retained -/

theorem take_append_take {α : Type} (n : Nat) (xs ys : List α) :
    (xs ++ ys.take n).take n = (xs ++ ys).take n := by
  rw [List.take_append_eq_append_take, List.take_append_eq_append_take, List.take_take]
  congr 2
  omega

theorem ids_step (s : State) (op : Op) (hop : op.isClear = false)
    (hlen : s.chatHistory.length ≤ 50) :
    (step s op).ids = ((inserted s op).toList ++ s.ids).take 50 ∧
    (step s op).chatHistory.length ≤ 50 := by
  have hself : s.ids = s.ids.take 50 :=
    (List.take_of_length_le (by simpa [State.ids] using hlen)).symm
  cases op with
  | startNewChat now clk =>
    exact ⟨by simpa [step, inserted] using ids_startNewChat now clk s,
      updateChatHistory_length_le _ _⟩
  | recordExchange u a usage clk =>
    refine ⟨?_, updateChatHistory_length_le _ _⟩
    simp only [step, inserted, recordExchange]
    rw [ids_updateChatHistory]
    simp only [State.ids, List.append_eq_nil, List.cons_ne_self, and_false, or_false,
      reduceCtorEq]
    split_ifs with h <;> simp
  | loadChat chatId =>
    have hh : (loadChat chatId s).chatHistory = s.chatHistory := by
      unfold loadChat
      split <;> rfl
    refine ⟨?_, by simpa [step, hh] using hlen⟩
    simp only [step, inserted, State.ids, hh, Option.toList, List.nil_append]
    exact hself
  | clearAllChats c now clk => exact absurd hop (by simp [Op.isClear])

theorem ids_run (ops : List Op) :
    ∀ s : State, (∀ op ∈ ops, op.isClear = false) → s.chatHistory.length ≤ 50 →
      (run s ops).ids = ((logOf inserted s ops).reverse ++ s.ids).take 50 ∧
      (run s ops).chatHistory.length ≤ 50 := by
  induction ops with
  | nil =>
    intro s _ hlen
    refine ⟨?_, hlen⟩
    simp only [run, List.foldl_nil, logOf, List.reverse_nil, List.nil_append]
    exact (List.take_of_length_le (by simpa [State.ids] using hlen)).symm
  | cons op rest ih =>
    intro s hops hlen
    obtain ⟨h1, h2⟩ := ids_step s op (hops op (List.mem_cons_self _ _)) hlen
    obtain ⟨r1, r2⟩ := ih (step s op) (fun o ho => hops o (List.mem_cons_of_mem _ ho)) h2
    have hrun : run s (op :: rest) = run (step s op) rest := rfl
    rw [hrun]
    refine ⟨?_, r2⟩
    rw [r1, h1, take_append_take]
    simp only [logOf, List.reverse_append, List.append_assoc]
    cases inserted s op <;> simp

/-- C4, as stated, fails: in the run `fiftyOneSessions` session `1` is among the 50
sessions most recently upserted (only session `52` was upserted after it), yet it is
the one that is evicted when session `52` is created, while session `2`, which is not
among them, is retained. -/
theorem eviction_order_counterexample :
    "1" ∈ mostRecent 50 (logOf touched (initialState "m" []) fiftyOneSessions) ∧
    "1" ∉ (run (initialState "m" []) fiftyOneSessions).ids ∧
    "2" ∉ mostRecent 50 (logOf touched (initialState "m" []) fiftyOneSessions) ∧
    "2" ∈ (run (initialState "m" []) fiftyOneSessions).ids := by
  refine ⟨by decide, by decide, by decide, by decide⟩

/-- C4, amended: for every sequence of `startNewChat`, `loadChat` and `recordExchange`
events that starts from an empty history, the sessions of `chatHistory` are the (at
most 50) sessions most recently inserted, the newest first; an upsert of a session that
is in the history does not renew its place, so a session is evicted when 50 other
sessions were inserted after it. -/
theorem retained_are_last_inserted (model : String) (ops : List Op)
    (hops : ∀ op ∈ ops, op.isClear = false) :
    (run (initialState model []) ops).ids =
      ((logOf inserted (initialState model []) ops).reverse).take 50 ∧
    (run (initialState model []) ops).chatHistory.length ≤ 50 := by
  obtain ⟨h1, h2⟩ := ids_run ops (initialState model []) hops (by simp [initialState])
  refine ⟨?_, h2⟩
  rw [h1]
  simp [State.ids, initialState]

/-- The amended C4 at the run `fiftyOneSessions`. -/
theorem retained_are_last_inserted_witness :
    (run (initialState "m" []) fiftyOneSessions).ids =
      ((logOf inserted (initialState "m" []) fiftyOneSessions).reverse).take 50 ∧
    (run (initialState "m" []) fiftyOneSessions).chatHistory.length ≤ 50 :=
  retained_are_last_inserted "m" fiftyOneSessions (by decide)

/-! ## C11: the active session id -/

theorem loadChat_cases (chatId : String) (s : State) :
    loadChat chatId s = s ∨
    ((loadChat chatId s).currentChatId = some chatId ∧
      (loadChat chatId s).chatHistory = s.chatHistory ∧ chatId ∈ s.ids) := by
  unfold loadChat
  cases hf : s.chatHistory.find? (fun c => decide (c.id = chatId)) with
  | none => exact Or.inl rfl
  | some chat =>
    refine Or.inr ⟨rfl, rfl, ?_⟩
    have hp := List.find?_some hf
    simp only [decide_eq_true_eq] at hp
    exact List.mem_map.2 ⟨chat, List.mem_of_find?_eq_some hf, hp⟩

theorem ids_loadChat_of_eq {chatId : String} {s : State}
    (h : (loadChat chatId s).chatHistory = s.chatHistory) :
    (loadChat chatId s).ids = s.ids := by
  simp only [State.ids, h]

/-- What every event keeps, from a history of at most 50 sessions: the state is the
initial one `s0`, or there is an active id that names a session of the history, or the
message buffer is empty and the active id is the string of the clock reading `acc` that
the last `startNewChat` assigned. -/
theorem step_active (s0 s : State) (acc : Option Nat) (op : Op)
    (hlen : s.chatHistory.length ≤ 50)
    (hinv : s = s0 ∨
      ∃ cid, s.currentChatId = some cid ∧
        (cid ∈ s.ids ∨ (s.messages = [] ∧ ∃ now, acc = some now ∧ cid = toString now))) :
    (step s op).chatHistory.length ≤ 50 ∧
    (step s op = s0 ∨
      ∃ cid, (step s op).currentChatId = some cid ∧
        (cid ∈ (step s op).ids ∨
          ((step s op).messages = [] ∧
            ∃ now, (match op.assigned with
                    | some n => some n
                    | none => acc) = some now ∧ cid = toString now))) := by
  cases op with
  | startNewChat now clk =>
    refine ⟨updateChatHistory_length_le _ _, Or.inr ⟨toString now, ?_, Or.inr ⟨rfl, now, rfl, rfl⟩⟩⟩
    simp only [step, startNewChat, updateChatHistory_currentChatId]
    rw [activeId_some_of_ne_empty clk (toString_nat_ne_empty now)]
  | recordExchange u a usage clk =>
    refine ⟨updateChatHistory_length_le _ _, Or.inr ⟨_, rfl, Or.inl ?_⟩⟩
    obtain ⟨e, he, hid, _⟩ := chatData_mem_updateChatHistory clk
      { s with
        totalTokens := match usage with
                       | some t => s.totalTokens + t
                       | none => s.totalTokens
        messages := s.messages ++
          [{ role := "user", content := u }, { role := "assistant", content := a }] }
      hlen (Or.inr (by simp))
    exact List.mem_map.2 ⟨e, he, hid⟩
  | loadChat chatId =>
    rcases loadChat_cases chatId s with h | ⟨h1, h2, h3⟩
    · simp only [step, h, Op.assigned]
      exact ⟨hlen, hinv⟩
    · refine ⟨by simpa [step, h2] using hlen, Or.inr ⟨chatId, h1, Or.inl ?_⟩⟩
      simp only [step]
      rw [ids_loadChat_of_eq h2]
      exact h3
  | clearAllChats c now clk =>
    cases c with
    | false => exact ⟨hlen, hinv⟩
    | true =>
      refine ⟨updateChatHistory_length_le _ _,
        Or.inr ⟨toString now, ?_, Or.inr ⟨rfl, now, rfl, rfl⟩⟩⟩
      simp only [step, clearAllChats, if_true, startNewChat, updateChatHistory_currentChatId]
      rw [activeId_some_of_ne_empty clk (toString_nat_ne_empty now)]

theorem run_active (s0 : State) (ops : List Op) :
    ∀ (s : State) (acc : Option Nat), s.chatHistory.length ≤ 50 →
      (s = s0 ∨
        ∃ cid, s.currentChatId = some cid ∧
          (cid ∈ s.ids ∨ (s.messages = [] ∧ ∃ now, acc = some now ∧ cid = toString now))) →
      (run s ops).chatHistory.length ≤ 50 ∧
      (run s ops = s0 ∨
        ∃ cid, (run s ops).currentChatId = some cid ∧
          (cid ∈ (run s ops).ids ∨
            ((run s ops).messages = [] ∧
              ∃ now, lastAssigned acc ops = some now ∧ cid = toString now))) := by
  induction ops with
  | nil =>
    intro s acc hlen h
    exact ⟨hlen, h⟩
  | cons op rest ih =>
    intro s acc hlen h
    obtain ⟨h1, h2⟩ := step_active s0 s acc op hlen h
    exact ih (step s op) _ h1 h2

/-- C11, as stated, fails: after `startNewChat` alone no message has been sent and
`currentChatId` is the clock string, not `null`; and after an exchange followed by
`startNewChat` a message has been sent and `currentChatId` is the id of no session of
`chatHistory`. -/
theorem active_id_counterexample :
    messageSent [Op.startNewChat 5 ⟨5, "t5"⟩] = false ∧
    (run (initialState "m" []) [Op.startNewChat 5 ⟨5, "t5"⟩]).currentChatId = some "5" ∧
    messageSent [Op.recordExchange "a" "b" none ⟨1, "t1"⟩, Op.startNewChat 7 ⟨7, "t7"⟩] =
      true ∧
    (run (initialState "m" [])
      [Op.recordExchange "a" "b" none ⟨1, "t1"⟩, Op.startNewChat 7 ⟨7, "t7"⟩]).currentChatId =
        some "7" ∧
    "7" ∉ (run (initialState "m" [])
      [Op.recordExchange "a" "b" none ⟨1, "t1"⟩, Op.startNewChat 7 ⟨7, "t7"⟩]).ids := by
  refine ⟨by decide, by decide, by decide, by decide, by decide⟩

/-- C11, amended: in every client state reached from the initial state (no active id,
empty message buffer, a history of at most 50 sessions) by any sequence of
`startNewChat`, `recordExchange`, `loadChat` and `clearAllChats`, `currentChatId` is
`null` only if the state is still the initial one; otherwise it is the id of a session
of `chatHistory`, or the message buffer is empty and `currentChatId` is the string of
the clock reading that the most recent `startNewChat` assigned (called directly or by a
confirmed `clearAllChats`). The history keeps at most 50 sessions. -/
theorem active_id_invariant (model : String) (stored : List Session) (ops : List Op)
    (hlen : stored.length ≤ 50) :
    (run (initialState model stored) ops).chatHistory.length ≤ 50 ∧
    (((run (initialState model stored) ops).currentChatId = none ∧
        run (initialState model stored) ops = initialState model stored) ∨
      ∃ cid, (run (initialState model stored) ops).currentChatId = some cid ∧
        (cid ∈ (run (initialState model stored) ops).ids ∨
          ((run (initialState model stored) ops).messages = [] ∧
            ∃ now, lastAssigned none ops = some now ∧ cid = toString now))) := by
  obtain ⟨h1, h2⟩ := run_active (initialState model stored) ops (initialState model stored)
    none hlen (Or.inl rfl)
  refine ⟨h1, ?_⟩
  rcases h2 with h2 | h2
  · left
    rw [h2]
    exact ⟨rfl, rfl⟩
  · exact Or.inr h2

/-- The amended C11 at the second run of the counterexample, from a history of one
stored session. -/
theorem active_id_invariant_witness :
    (run (initialState "m" [⟨"9", [120], [], "t0", "m"⟩])
      [Op.recordExchange "a" "b" none ⟨1, "t1"⟩,
        Op.startNewChat 7 ⟨7, "t7"⟩]).chatHistory.length ≤ 50 ∧
    (((run (initialState "m" [⟨"9", [120], [], "t0", "m"⟩])
        [Op.recordExchange "a" "b" none ⟨1, "t1"⟩,
          Op.startNewChat 7 ⟨7, "t7"⟩]).currentChatId = none ∧
        run (initialState "m" [⟨"9", [120], [], "t0", "m"⟩])
          [Op.recordExchange "a" "b" none ⟨1, "t1"⟩, Op.startNewChat 7 ⟨7, "t7"⟩] =
          initialState "m" [⟨"9", [120], [], "t0", "m"⟩]) ∨
      ∃ cid, (run (initialState "m" [⟨"9", [120], [], "t0", "m"⟩])
        [Op.recordExchange "a" "b" none ⟨1, "t1"⟩,
          Op.startNewChat 7 ⟨7, "t7"⟩]).currentChatId = some cid ∧
        (cid ∈ (run (initialState "m" [⟨"9", [120], [], "t0", "m"⟩])
            [Op.recordExchange "a" "b" none ⟨1, "t1"⟩, Op.startNewChat 7 ⟨7, "t7"⟩]).ids ∨
          ((run (initialState "m" [⟨"9", [120], [], "t0", "m"⟩])
            [Op.recordExchange "a" "b" none ⟨1, "t1"⟩,
              Op.startNewChat 7 ⟨7, "t7"⟩]).messages = [] ∧
            ∃ now, lastAssigned none
              [Op.recordExchange "a" "b" none ⟨1, "t1"⟩, Op.startNewChat 7 ⟨7, "t7"⟩] =
                some now ∧ cid = toString now))) :=
  active_id_invariant "m" [⟨"9", [120], [], "t0", "m"⟩]
    [Op.recordExchange "a" "b" none ⟨1, "t1"⟩, Op.startNewChat 7 ⟨7, "t7"⟩]
    (by decide)

/-! ## C12: the default user id -/

/-- C12: for every store, method, action, `chatId` and body, a request without the
`userId` parameter gets the same response and leaves the same store as the same
request with `userId=anonymous` (and as the one with an empty `userId`): all three work
on the keys of the user `anonymous`. -/
theorem default_identity (clk : Clock) (st : Store) (method : String)
    (action chatId : Option String) (body : Option JsValue) :
    handler clk st
        { method := method, userId := none, action := action, chatId := chatId,
          body := body } =
      handler clk st
        { method := method, userId := some "anonymous", action := action, chatId := chatId,
          body := body } ∧
    handler clk st
        { method := method, userId := none, action := action, chatId := chatId,
          body := body } =
      handler clk st
        { method := method, userId := some "", action := action, chatId := chatId,
          body := body } ∧
    effectiveUserId none = "anonymous" ∧
    effectiveUserId (some "anonymous") = "anonymous" := by
  have h1 : effectiveUserId (some "anonymous") = effectiveUserId none := by decide
  have h2 : effectiveUserId (some "") = effectiveUserId none := by decide
  refine ⟨?_, ?_, rfl, by decide⟩
  · simp only [handler, handlerTry, h1]
  · simp only [handler, handlerTry, h2]

/-! ## C13: one key per user and kind -/

theorem historyKey_injective {a b : String} (h : historyKey a = historyKey b) : a = b := by
  have hd := congrArg String.data h
  simp only [historyKey, String.data_append, List.append_cancel_left_eq] at hd
  exact String.ext hd

theorem settingsKey_injective {a b : String} (h : settingsKey a = settingsKey b) : a = b := by
  have hd := congrArg String.data h
  simp only [settingsKey, String.data_append, List.append_cancel_left_eq] at hd
  exact String.ext hd

theorem historyKey_ne_settingsKey (a b : String) : historyKey a ≠ settingsKey b := by
  intro h
  have hd := congrArg String.data h
  simp [historyKey, settingsKey, String.data_append] at hd

theorem Store.set_of_ne (st : Store) (k k2 : String) (v : Json) (h : k2 ≠ k) :
    st.set k v k2 = st k2 := by
  simp [Store.set, h]

theorem Store.delete_of_ne (st : Store) (k k2 : String) (h : k2 ≠ k) :
    st.delete k k2 = st k2 := by
  simp [Store.delete, h]

/-- The only key whose value a request can change: the history key of its user, for the
actions `save-chat`, `clear-history` and `delete-chat`, and the settings key of its
user, for `save-settings`. -/
theorem handler_frame (clk : Clock) (st : Store) (req : Request) (k : String)
    (hk : (handler clk st req).2 k ≠ st k) :
    (k = historyKey (effectiveUserId req.userId) ∧
      (req.action = some "save-chat" ∨ req.action = some "clear-history" ∨
        req.action = some "delete-chat")) ∨
    (k = settingsKey (effectiveUserId req.userId) ∧ req.action = some "save-settings") := by
  by_cases h0 : req.method = "OPTIONS"
  · exact absurd (by simp [handler, h0]) hk
  by_cases hg : req.method = "GET"
  · refine absurd ?_ hk
    by_cases a1 : req.action = some "history"
    · simp [handler, handlerTry, hg, a1]
    · by_cases a2 : req.action = some "settings"
      · simp [handler, handlerTry, hg, a2]
      · simp [handler, handlerTry, hg, a1, a2]
  by_cases hp : req.method = "POST"
  · by_cases a1 : req.action = some "save-chat"
    · left
      refine ⟨?_, Or.inl a1⟩
      by_contra hne
      apply hk
      rcases handler_save_chat_cases clk st req hp a1 with ⟨_, _, _, _, _, _, hr⟩ | ⟨hr, _⟩
      · rw [hr]
        exact Store.set_of_ne st _ k _ hne
      · rw [hr]
    · by_cases a2 : req.action = some "save-settings"
      · right
        refine ⟨?_, a2⟩
        by_contra hne
        apply hk
        cases hb : req.body with
        | none => simp [handler, handlerTry, hp, hb]
        | some b =>
          have hr : handler clk st req =
              (okMessage "Settings saved",
                st.set (settingsKey (effectiveUserId req.userId)) b.written) := by
            simp [handler, handlerTry, hp, a2, hb]
          rw [hr]
          exact Store.set_of_ne st _ k _ hne
      · refine absurd ?_ hk
        cases hb : req.body with
        | none => simp [handler, handlerTry, hp, hb]
        | some b => simp [handler, handlerTry, hp, a1, a2, hb]
  by_cases hd : req.method = "DELETE"
  · by_cases a1 : req.action = some "clear-history"
    · left
      refine ⟨?_, Or.inr (Or.inl a1)⟩
      by_contra hne
      apply hk
      have hr : handler clk st req =
          (okMessage "History cleared",
            st.delete (historyKey (effectiveUserId req.userId))) := by
        simp [handler, handlerTry, hd, a1]
      rw [hr]
      exact Store.delete_of_ne st _ k hne
    · by_cases a2 : req.action = some "delete-chat"
      · left
        refine ⟨?_, Or.inr (Or.inr a2)⟩
        by_contra hne
        apply hk
        rw [handler_delete_chat clk st req hd a2]
        cases hst : st (historyKey (effectiveUserId req.userId)) with
        | none => rfl
        | some j =>
          cases j with
          | arr xs =>
            cases hf : filterHistory req.chatId xs with
            | none => simp only [hf]
            | some ys =>
              simp only [hf]
              exact Store.set_of_ne st _ k _ hne
          | _ => rfl
      · exact absurd (by simp [handler, handlerTry, hd, a1, a2]) hk
  · exact absurd (by simp [handler, handlerTry, h0, hg, hp, hd]) hk

/-- C13: for every store and every request, the history and the settings stored for a
user whose effective id differs from that of the request are unchanged; a request with
one of the actions `save-chat`, `delete-chat`, `clear-history` changes the settings of
no user, and a request with the action `save-settings` changes the history of no user;
a history key is never a settings key, and the keys of one kind are equal only for
equal ids. -/
theorem per_user_namespacing (clk : Clock) (st : Store) (req reqH reqS : Request)
    (u2 : Option String) (v a b : String)
    (hne : effectiveUserId u2 ≠ effectiveUserId req.userId)
    (hH : reqH.action = some "save-chat" ∨ reqH.action = some "delete-chat" ∨
      reqH.action = some "clear-history")
    (hS : reqS.action = some "save-settings") :
    (handler clk st req).2 (historyKey (effectiveUserId u2)) =
      st (historyKey (effectiveUserId u2)) ∧
    (handler clk st req).2 (settingsKey (effectiveUserId u2)) =
      st (settingsKey (effectiveUserId u2)) ∧
    (handler clk st reqH).2 (settingsKey v) = st (settingsKey v) ∧
    (handler clk st reqS).2 (historyKey v) = st (historyKey v) ∧
    historyKey a ≠ settingsKey b ∧
    (historyKey a = historyKey b ↔ a = b) ∧
    (settingsKey a = settingsKey b ↔ a = b) := by
  refine ⟨?_, ?_, ?_, ?_, historyKey_ne_settingsKey a b,
    ⟨historyKey_injective, fun h => by rw [h]⟩, ⟨settingsKey_injective, fun h => by rw [h]⟩⟩
  · by_contra hk
    rcases handler_frame clk st req _ hk with ⟨h1, _⟩ | ⟨h1, _⟩
    · exact hne (historyKey_injective h1)
    · exact historyKey_ne_settingsKey _ _ h1
  · by_contra hk
    rcases handler_frame clk st req _ hk with ⟨h1, _⟩ | ⟨h1, _⟩
    · exact historyKey_ne_settingsKey _ _ h1.symm
    · exact hne (settingsKey_injective h1)
  · by_contra hk
    rcases handler_frame clk st reqH _ hk with ⟨h1, _⟩ | ⟨_, h2⟩
    · exact historyKey_ne_settingsKey _ _ h1.symm
    · rw [h2] at hH
      simp at hH
  · by_contra hk
    rcases handler_frame clk st reqS _ hk with ⟨_, h2⟩ | ⟨h1, _⟩
    · rw [hS] at h2
      simp at h2
    · exact historyKey_ne_settingsKey _ _ h1

/-- C13 at a store with a history and settings of `u2`: a `save-chat` and a
`clear-history` of `u1` and a `save-settings` of `u2`. -/
theorem per_user_namespacing_witness :
    (handler ⟨1, "t"⟩
      ((Store.empty.set (historyKey "u2") (Json.arr [Json.obj [("id", Json.str "a")]])).set
        (settingsKey "u2") (Json.obj [("soundEnabled", Json.bool true)]))
      { method := "POST", userId := some "u1", action := some "save-chat", chatId := none,
        body := some (JsValue.obj [("title", JsValue.str "Hi")]) }).2
        (historyKey (effectiveUserId (some "u2"))) =
      ((Store.empty.set (historyKey "u2") (Json.arr [Json.obj [("id", Json.str "a")]])).set
        (settingsKey "u2") (Json.obj [("soundEnabled", Json.bool true)]))
        (historyKey (effectiveUserId (some "u2"))) ∧
    (handler ⟨1, "t"⟩
      ((Store.empty.set (historyKey "u2") (Json.arr [Json.obj [("id", Json.str "a")]])).set
        (settingsKey "u2") (Json.obj [("soundEnabled", Json.bool true)]))
      { method := "POST", userId := some "u1", action := some "save-chat", chatId := none,
        body := some (JsValue.obj [("title", JsValue.str "Hi")]) }).2
        (settingsKey (effectiveUserId (some "u2"))) =
      ((Store.empty.set (historyKey "u2") (Json.arr [Json.obj [("id", Json.str "a")]])).set
        (settingsKey "u2") (Json.obj [("soundEnabled", Json.bool true)]))
        (settingsKey (effectiveUserId (some "u2"))) ∧
    (handler ⟨1, "t"⟩
      ((Store.empty.set (historyKey "u2") (Json.arr [Json.obj [("id", Json.str "a")]])).set
        (settingsKey "u2") (Json.obj [("soundEnabled", Json.bool true)]))
      { method := "DELETE", userId := some "u1", action := some "clear-history",
        chatId := none, body := none }).2 (settingsKey "u2") =
      ((Store.empty.set (historyKey "u2") (Json.arr [Json.obj [("id", Json.str "a")]])).set
        (settingsKey "u2") (Json.obj [("soundEnabled", Json.bool true)]))
        (settingsKey "u2") ∧
    (handler ⟨1, "t"⟩
      ((Store.empty.set (historyKey "u2") (Json.arr [Json.obj [("id", Json.str "a")]])).set
        (settingsKey "u2") (Json.obj [("soundEnabled", Json.bool true)]))
      { method := "POST", userId := some "u2", action := some "save-settings",
        chatId := none, body := some (JsValue.obj []) }).2 (historyKey "u2") =
      ((Store.empty.set (historyKey "u2") (Json.arr [Json.obj [("id", Json.str "a")]])).set
        (settingsKey "u2") (Json.obj [("soundEnabled", Json.bool true)]))
        (historyKey "u2") ∧
    historyKey "u1" ≠ settingsKey "u2" ∧
    (historyKey "u1" = historyKey "u2" ↔ "u1" = "u2") ∧
    (settingsKey "u1" = settingsKey "u2" ↔ "u1" = "u2") :=
  per_user_namespacing ⟨1, "t"⟩
    ((Store.empty.set (historyKey "u2") (Json.arr [Json.obj [("id", Json.str "a")]])).set
      (settingsKey "u2") (Json.obj [("soundEnabled", Json.bool true)]))
    { method := "POST", userId := some "u1", action := some "save-chat", chatId := none,
      body := some (JsValue.obj [("title", JsValue.str "Hi")]) }
    { method := "DELETE", userId := some "u1", action := some "clear-history",
      chatId := none, body := none }
    { method := "POST", userId := some "u2", action := some "save-settings",
      chatId := none, body := some (JsValue.obj []) }
    (some "u2") "u2" "u1" "u2" (by decide) (Or.inr (Or.inr rfl)) rfl

end ChatBot
